import Mathlib

/-!
The f22-raptor simulation core: player, camera, obstacle and collision logic of
`game_state.c`, and the fixed-timestep driver of `main.c`.

A shallow embedding of `src/c/src/game_state.c`.

Modelling conventions
* `F22` (declared in the absent `f22.h`) is the raw scaled integer of a fixed-point
  number with `fracBits` fractional bits; integer overflow is outside the model.
* C `float` values are modelled by exact rationals `ℚ`: every `float` operation is the
  exact rational operation, `(int)` casts truncate toward zero.
* The constants of the absent `config.h` are the fields of `Config`.
* The wave generator and the asteroid system (absent `wave.c`, `asteroid.c`) are type
  parameters `W`, `A` with their operations collected in `Externals`.
* C functions that write through a pointer return the updated value.
-/

namespace F22Raptor

/-! ## Fixed point numbers and configuration -/

/-- Raw representation of a fixed-point scalar. -/
abbrev F22 := Int

/-- The constants used by `game_state.c`; their values live in the absent `config.h`
and `f22.h`, so they are parameters of the development. -/
structure Config where
  /-- number of fractional bits of `F22` -/
  fracBits : Nat
  WINDOW_WIDTH : Int
  WINDOW_HEIGHT : Int
  GRAVITY : F22
  THRUST : F22
  MAX_VELOCITY : F22
  MIN_VELOCITY : F22
  SCROLL_SPEED : ℚ
  GAME_OVER_X : ℚ
  OBSTACLE_WIDTH : Int
  WORLD_TO_SCREEN_SCALE : ℚ
  MAX_OBSTACLES : Nat

/-- The C conversion `(int) f` of a float: truncation toward zero. -/
def float_to_int (f : ℚ) : Int :=
  if 0 ≤ f then Int.floor f else Int.ceil f

/-- Modelled from the spec: `f22.h` is absent; the scale factor `2 ^ fracBits` of the
"scaled integer (fixed fractional-bit count)" representation. -/
def f22_one (cfg : Config) : Int := 2 ^ cfg.fracBits

/-- Modelled from the spec: `f22.h` is absent; `fromFloat` scales the float and keeps the
integer part. -/
def f22_from_float (cfg : Config) (f : ℚ) : F22 :=
  float_to_int (f * (f22_one cfg : ℚ))

/-- Modelled from the spec: `f22.h` is absent; `toFloat` divides the raw integer by the
scale factor. -/
def f22_to_float (cfg : Config) (a : F22) : ℚ :=
  (a : ℚ) / (f22_one cfg : ℚ)

/-- Modelled from the spec: `f22.h` is absent; `add` is the exact integer sum of the raw
values. -/
def f22_add (a b : F22) : F22 := a + b

/-- Modelled from the spec: `f22.h` is absent; `sub` is the exact integer difference of
the raw values. -/
def f22_sub (a b : F22) : F22 := a - b

/-- Modelled from the spec: `f22.h` is absent; `mul` is the integer product of the raw
values shifted right by the fractional bit count (rounding toward minus infinity). -/
def f22_mul (cfg : Config) (a b : F22) : F22 := (a * b) / f22_one cfg

/-! ## Data model -/

/-- A pair of fixed-point coordinates (the type of `position` and `velocity`). -/
structure Vec2 where
  x : F22
  y : F22
deriving DecidableEq, Repr

/-- The `Player` record. -/
structure Player where
  position : Vec2
  velocity : Vec2
  rotation : ℚ
deriving DecidableEq, Repr

/-- The `Obstacle` record. -/
structure Obstacle where
  x : F22
  gap_y : F22
  active : Bool
deriving DecidableEq, Repr

/-- The `ScreenPos` record: integer pixel coordinates. -/
structure ScreenPos where
  x : Int
  y : Int
deriving DecidableEq, Repr

/-- The `GameState` record, over a wave generator type `W` and an asteroid system
type `A`. The C array `obstacles[MAX_OBSTACLES]` is a list. -/
structure GameState (W A : Type) where
  player : Player
  obstacles : List Obstacle
  last_obstacle_x : F22
  score : Nat
  camera_y_offset : F22
  target_y_offset : F22
  wave : W
  asteroid_system : A

/-- The functions of the wave generator and the asteroid system that `game_state.c`
calls; their bodies are not part of the sources at hand. -/
structure Externals (W A : Type) where
  /-- reads `wave.points[i].y` -/
  wave_point_y : W → Int → F22
  wave_init : W
  /-- the call `wave_update(&wave, player_screen_y)` -/
  wave_update : W → Int → W
  asteroid_system_init : A
  /-- the call `asteroid_system_update(&system, &wave)` -/
  asteroid_system_update : A → W → A
  /-- the call `asteroid_system_check_collision(&system, &player)` on `const` pointers -/
  asteroid_system_check_collision : A → Player → Bool

/-! ## `game_state.c` -/

/-- `player_init`. -/
def player_init (cfg : Config) : Player :=
  { position := { x := f22_from_float cfg 400, y := f22_from_float cfg 300 }
    velocity := { x := f22_from_float cfg 0, y := f22_from_float cfg 0 }
    rotation := 0 }

/-- The constant `EDGE_BUFFER` of `update_camera`. -/
def EDGE_BUFFER : ℚ := 150

/-- The constant `RETURN_BUFFER` of `update_camera`. -/
def RETURN_BUFFER : ℚ := 200

/-- The local `player_screen_y` of `update_camera`. -/
def camera_player_screen_y {W A : Type} (cfg : Config) (state : GameState W A) : ℚ :=
  f22_to_float cfg state.player.position.y - f22_to_float cfg state.camera_y_offset

/-- The value of `state->target_y_offset` after the `if / else if / else if` chain of
`update_camera`. -/
def camera_target {W A : Type} (cfg : Config) (state : GameState W A) : F22 :=
  let player_screen_y := camera_player_screen_y cfg state
  if player_screen_y < EDGE_BUFFER then
    f22_sub state.player.position.y (f22_from_float cfg EDGE_BUFFER)
  else if player_screen_y > (cfg.WINDOW_HEIGHT : ℚ) - EDGE_BUFFER then
    f22_sub state.player.position.y
      (f22_from_float cfg ((cfg.WINDOW_HEIGHT : ℚ) - EDGE_BUFFER))
  else if player_screen_y > RETURN_BUFFER ∧
      player_screen_y < (cfg.WINDOW_HEIGHT : ℚ) - RETURN_BUFFER then
    state.camera_y_offset
  else
    state.target_y_offset

/-- `update_camera`. -/
def update_camera {W A : Type} (cfg : Config) (state : GameState W A) : GameState W A :=
  let target_y_offset := camera_target cfg state
  let diff := f22_sub target_y_offset state.camera_y_offset
  { state with
    target_y_offset := target_y_offset
    camera_y_offset :=
      f22_add state.camera_y_offset (f22_mul cfg diff (f22_from_float cfg 0.5)) }

/-- The value of `player->velocity.y` in `player_update` after gravity and thrust,
before the clamp. -/
def raw_velocity_y (cfg : Config) (player : Player) (thrust : Bool) : F22 :=
  let vy := f22_add player.velocity.y cfg.GRAVITY
  if thrust then f22_sub vy cfg.THRUST else vy

/-- The value of `player->velocity.y` in `player_update` after the clamp. -/
def clamped_velocity_y (cfg : Config) (player : Player) (thrust : Bool) : F22 :=
  let vy := raw_velocity_y cfg player thrust
  let current_vel := f22_to_float cfg vy
  if current_vel > f22_to_float cfg cfg.MAX_VELOCITY then cfg.MAX_VELOCITY
  else if current_vel < f22_to_float cfg cfg.MIN_VELOCITY then cfg.MIN_VELOCITY
  else vy

/-- The local `normalized_distance` of `player_update`: the distance between the wave
sample at index `(int) state->player.position.x` and the updated `player->position.y`,
divided by `WINDOW_HEIGHT`. -/
def normalized_distance {W A : Type} (cfg : Config) (ext : Externals W A)
    (player : Player) (state : GameState W A) (thrust : Bool) : ℚ :=
  let position_y := f22_add player.position.y (clamped_velocity_y cfg player thrust)
  let _x := float_to_int (f22_to_float cfg state.player.position.x)
  let ghost_y := f22_to_float cfg (ext.wave_point_y state.wave _x)
  let player_y := f22_to_float cfg position_y
  let y_distance := |ghost_y - player_y|
  y_distance / (cfg.WINDOW_HEIGHT : ℚ)

/-- The local `move_amount` of `player_update` as a function of the normalized
distance. -/
def move_amount (normalized_distance : ℚ) : ℚ :=
  (1 - normalized_distance) * 1 - normalized_distance * 6

/-- `player_update`, returning the updated `*player`. -/
def player_update {W A : Type} (cfg : Config) (ext : Externals W A)
    (player : Player) (state : GameState W A) (thrust : Bool) : Player :=
  let velocity_y := clamped_velocity_y cfg player thrust
  let position_y := f22_add player.position.y velocity_y
  let normalized_distance := normalized_distance cfg ext player state thrust
  let screen_mid : ℚ := (cfg.WINDOW_WIDTH : ℚ) / 2
  let player_x := f22_to_float cfg player.position.x
  let position_x :=
    if player_x < screen_mid then
      f22_add player.position.x (f22_from_float cfg (move_amount normalized_distance))
    else if normalized_distance > 0.2 then
      f22_sub player.position.x (f22_from_float cfg 5)
    else
      f22_sub player.position.x (f22_from_float cfg 0)
  let vel_y := f22_to_float cfg velocity_y
  let target_rotation := -vel_y * 50
  let rotation := (player.rotation - target_rotation) * 0.1
  let rotation := max (-55 + cfg.SCROLL_SPEED) (min (55 - cfg.SCROLL_SPEED) rotation)
  { position := { x := position_x, y := position_y }
    velocity := { x := player.velocity.x, y := velocity_y }
    rotation := rotation }

/-- `world_to_screen`. -/
def world_to_screen (cfg : Config) (world_x world_y camera_y_offset : F22) : ScreenPos :=
  { x := float_to_int (f22_to_float cfg world_x * cfg.WORLD_TO_SCREEN_SCALE)
    y := float_to_int ((f22_to_float cfg world_y - f22_to_float cfg camera_y_offset)
          * cfg.WORLD_TO_SCREEN_SCALE) }

/-- `player_get_screen_position`. -/
def player_get_screen_position (cfg : Config) (player : Player) (camera_y_offset : F22) :
    ScreenPos :=
  world_to_screen cfg player.position.x player.position.y camera_y_offset

/-- `obstacle_init`. -/
def obstacle_init (cfg : Config) : Obstacle :=
  { x := f22_from_float cfg cfg.WINDOW_WIDTH
    gap_y := f22_from_float cfg 50
    active := false }

/-- `obstacle_update`, returning the updated `*obstacle`. -/
def obstacle_update (cfg : Config) (obstacle : Obstacle) : Obstacle :=
  if !obstacle.active then obstacle
  else
    let x := f22_sub obstacle.x (f22_from_float cfg cfg.SCROLL_SPEED)
    if f22_to_float cfg x < -(cfg.OBSTACLE_WIDTH : ℚ) then
      { obstacle with x := x, active := false }
    else
      { obstacle with x := x }

/-- `obstacle_get_screen_position`. -/
def obstacle_get_screen_position (cfg : Config) (obstacle : Obstacle) : ScreenPos :=
  { x := float_to_int (f22_to_float cfg obstacle.x)
    y := float_to_int ((1 - f22_to_float cfg obstacle.gap_y / 100) * (cfg.WINDOW_HEIGHT : ℚ)) }

/-- `game_state_init`. -/
def game_state_init {W A : Type} (cfg : Config) (ext : Externals W A) : GameState W A :=
  { player := player_init cfg
    obstacles := List.replicate cfg.MAX_OBSTACLES (obstacle_init cfg)
    last_obstacle_x := f22_from_float cfg cfg.WINDOW_WIDTH
    score := 0
    camera_y_offset := f22_from_float cfg 0
    target_y_offset := f22_from_float cfg 0
    wave := ext.wave_init
    asteroid_system := ext.asteroid_system_init }

/-- `game_state_update`, returning the updated `*state`. The call
`player_update(&state->player, state, thrust_active)` passes the state whose wave and
asteroid system are already advanced. -/
def game_state_update {W A : Type} (cfg : Config) (ext : Externals W A)
    (state : GameState W A) (thrust_active : Bool) : GameState W A :=
  let player_pos := player_get_screen_position cfg state.player state.camera_y_offset
  let state := { state with wave := ext.wave_update state.wave player_pos.y }
  let state :=
    { state with
      asteroid_system := ext.asteroid_system_update state.asteroid_system state.wave }
  let state := { state with player := player_update cfg ext state.player state thrust_active }
  let state := update_camera cfg state
  { state with
    obstacles := state.obstacles.map fun o => if o.active then obstacle_update cfg o else o }

/-- The constant `player_radius` of `game_state_check_collisions`. -/
def player_radius : Int := 15

/-- The two nested `if` conditions of the obstacle loop of `game_state_check_collisions`
for one obstacle. -/
def obstacle_hit (cfg : Config) (player_pos : ScreenPos) (obstacle : Obstacle) : Bool :=
  let obs_pos := obstacle_get_screen_position cfg obstacle
  if player_pos.x + player_radius > obs_pos.x ∧
      player_pos.x - player_radius < obs_pos.x + cfg.OBSTACLE_WIDTH then
    if player_pos.y - player_radius < obs_pos.y - 100 ∨
        player_pos.y + player_radius > obs_pos.y + 100 then
      true
    else false
  else false

/-- The `for` loop of `game_state_check_collisions` over the obstacle array, from the
current slot on: inactive slots are skipped, the first hit returns `true`, running off
the end returns `false`. -/
def check_obstacles (cfg : Config) (player_pos : ScreenPos) : List Obstacle → Bool
  | [] => false
  | obstacle :: rest =>
    if !obstacle.active then check_obstacles cfg player_pos rest
    else if obstacle_hit cfg player_pos obstacle then true
    else check_obstacles cfg player_pos rest

/-- `game_state_check_collisions` in state-passing form: the returned pair is the
boolean result and the state left behind in `*state`. -/
def game_state_check_collisions {W A : Type} (cfg : Config) (ext : Externals W A)
    (state : GameState W A) : Bool × GameState W A :=
  let player_pos := player_get_screen_position cfg state.player state.camera_y_offset
  if f22_to_float cfg state.player.position.x < cfg.GAME_OVER_X then
    (true, state)
  else if ext.asteroid_system_check_collision state.asteroid_system state.player then
    (true, state)
  else
    (check_obstacles cfg player_pos state.obstacles, state)

/-! ## The fixed-timestep driver of `main.c` -/

/-- The SDL events that `handle_input` distinguishes: `SDL_QUIT`, `SDL_MOUSEBUTTONDOWN`
with its coordinates, `SDL_KEYDOWN` of space or up, `SDL_KEYDOWN` of escape, `SDL_KEYUP`
of space or up, and anything else. -/
inductive Event where
  | quit
  | mouse_button_down (x y : Int)
  | key_down_thrust
  | key_down_escape
  | key_up_thrust
  | other
deriving DecidableEq, Repr

/-- The `GameContext` record of `main.c`, without the renderer handle. Times read from
`SDL_GetTicks` are `uint32_t` milliseconds. -/
structure GameContext (W A : Type) where
  quit : Bool
  thrust_active : Bool
  game_state : GameState W A
  last_frame_time : Nat
  delta_time : ℚ
  accumulated_time : ℚ
  target_fps : ℚ
  frame_time : ℚ

/-- The `switch` of `handle_input` for one polled event; `handle_click` stands for
`game_state_handle_click`, whose body is not part of the sources at hand. -/
def handle_event {W A : Type} (handle_click : GameState W A → Int → Int → GameState W A)
    (ctx : GameContext W A) : Event → GameContext W A
  | Event.quit => { ctx with quit := true }
  | Event.mouse_button_down x y =>
    { ctx with game_state := handle_click ctx.game_state x y }
  | Event.key_down_thrust => { ctx with thrust_active := true }
  | Event.key_down_escape => { ctx with quit := true }
  | Event.key_up_thrust => { ctx with thrust_active := false }
  | Event.other => ctx

/-- `handle_input`: the `while (SDL_PollEvent(&event))` loop over the events pending at
the time of the call. -/
def handle_input {W A : Type} (handle_click : GameState W A → Int → Int → GameState W A)
    (events : List Event) (ctx : GameContext W A) : GameContext W A :=
  events.foldl (handle_event handle_click) ctx

/-- The constant `FIXED_TIME_STEP` of `main_loop`. -/
def FIXED_TIME_STEP : ℚ := 1 / 60

/-- The local `frame_time` of `main_loop` after the cap: the `uint32_t` difference of the
two tick counts in seconds, limited to 0.25. -/
def capped_frame_time (current_time last_frame_time : Nat) : ℚ :=
  let frame_time : ℚ :=
    (((current_time + 2 ^ 32 - last_frame_time) % 2 ^ 32 : Nat) : ℚ) / 1000
  if frame_time > 0.25 then 0.25 else frame_time

/-- The `while (ctx->accumulated_time >= FIXED_TIME_STEP)` loop of `main_loop`, with a
bound `fuel` on the number of condition tests. `updates` counts the calls of
`game_state_update` made so far and `polls k` are the events pending at the `k`-th call
of `handle_input`. The result is the context after the loop and the number of updates;
`none` means the fuel ran out. The call passes `FIXED_TIME_STEP` as a third argument that
`game_state_update` does not take; rendering does not change the context. -/
def tick_loop {W A : Type} (cfg : Config) (ext : Externals W A)
    (handle_click : GameState W A → Int → Int → GameState W A)
    (polls : Nat → List Event) :
    Nat → Nat → GameContext W A → Option (GameContext W A × Nat)
  | 0, _, _ => none
  | fuel + 1, updates, ctx =>
    if ctx.accumulated_time ≥ FIXED_TIME_STEP then
      let ctx := handle_input handle_click (polls updates) ctx
      let ctx :=
        { ctx with game_state := game_state_update cfg ext ctx.game_state ctx.thrust_active }
      let ctx := { ctx with accumulated_time := ctx.accumulated_time - FIXED_TIME_STEP }
      tick_loop cfg ext handle_click polls fuel (updates + 1) ctx
    else some (ctx, updates)

/-- `main_loop` (native build), given the value `current_time` returned by
`SDL_GetTicks`: returns the context left behind and the number of `game_state_update`
calls made. -/
def main_loop {W A : Type} (cfg : Config) (ext : Externals W A)
    (handle_click : GameState W A → Int → Int → GameState W A)
    (polls : Nat → List Event) (fuel : Nat) (current_time : Nat) (ctx : GameContext W A) :
    Option (GameContext W A × Nat) :=
  let frame_time := capped_frame_time current_time ctx.last_frame_time
  let ctx := { ctx with last_frame_time := current_time }
  let ctx := { ctx with accumulated_time := ctx.accumulated_time + frame_time }
  match tick_loop cfg ext handle_click polls fuel 0 ctx with
  | none => none
  | some (ctx, updates) =>
    let result := game_state_check_collisions cfg ext ctx.game_state
    let ctx := { ctx with game_state := result.2 }
    if result.1 then some ({ ctx with quit := true }, updates)
    else some (ctx, updates)

/-! ## Sample configuration used to evaluate the definitions -/

/-- A sample configuration: an 800 x 600 window, 16 fractional bits, gravity 1/4,
thrust 1/2 and vertical velocity limited to [-8, 8] world units per tick. -/
def sampleConfig : Config :=
  { fracBits := 16
    WINDOW_WIDTH := 800
    WINDOW_HEIGHT := 600
    GRAVITY := 16384
    THRUST := 32768
    MAX_VELOCITY := 524288
    MIN_VELOCITY := -524288
    SCROLL_SPEED := 5
    GAME_OVER_X := 100
    OBSTACLE_WIDTH := 50
    WORLD_TO_SCREEN_SCALE := 1
    MAX_OBSTACLES := 3 }

/-- Sample collaborators: a flat path at world height 300 that never changes and an
asteroid system without asteroids. -/
def sampleExt : Externals Unit Unit :=
  { wave_point_y := fun _ _ => 300 * 65536
    wave_init := ()
    wave_update := fun w _ => w
    asteroid_system_init := ()
    asteroid_system_update := fun a _ => a
    asteroid_system_check_collision := fun _ _ => false }

/-- A world-space state for the sample configuration: player at `(px, py)` with
vertical velocity `vy` (raw values), camera offset `cam` and camera target `tgt`. -/
def sampleState (px py vy cam tgt : F22) : GameState Unit Unit :=
  { player := { position := { x := px, y := py }, velocity := { x := 0, y := vy },
                rotation := 0 }
    obstacles := []
    last_obstacle_x := 0
    score := 0
    camera_y_offset := cam
    target_y_offset := tgt
    wave := ()
    asteroid_system := () }

/-- A state of the sample configuration with the player in the middle of the screen
(world height 300), the camera offset at 0 and the camera target at 100. -/
def bandState : GameState Unit Unit := sampleState 26214400 19660800 0 0 6553600

/-- A state of the sample configuration with the player near the top of the screen
(world height 100) and camera offset and target at 0. -/
def topState : GameState Unit Unit := sampleState 26214400 6553600 0 0 0

/-- A state of the sample configuration with the player near the bottom of the screen
(world height 500) and camera offset and target at 0. -/
def bottomState : GameState Unit Unit := sampleState 26214400 32768000 0 0 0

/-! ## Specification-side definitions -/

/-- The clamp of the specification: the value limited from below by `lo` and from above
by `hi`. -/
def clamp_spec (v lo hi : F22) : F22 := max lo (min v hi)

/-- The hit condition of the specification for one obstacle: the player's horizontal
extent `[px - 15, px + 15]` strictly overlaps the strip `[ox, ox + OBSTACLE_WIDTH]` and
the player's vertical extent `[py - 15, py + 15]` is not contained in the gap band
`[oy - 100, oy + 100]`, with `(ox, oy)` the obstacle's screen position. -/
def obstacle_hit_spec (cfg : Config) (player_pos : ScreenPos) (obstacle : Obstacle) : Prop :=
  (player_pos.x - 15 < (obstacle_get_screen_position cfg obstacle).x + cfg.OBSTACLE_WIDTH ∧
    (obstacle_get_screen_position cfg obstacle).x < player_pos.x + 15) ∧
  ¬ (Set.Icc (player_pos.y - 15) (player_pos.y + 15) ⊆
      Set.Icc ((obstacle_get_screen_position cfg obstacle).y - 100)
        ((obstacle_get_screen_position cfg obstacle).y + 100))

/-- An active obstacle of the sample configuration at world x = 10. -/
def sampleObstacle : Obstacle := { x := 655360, gap_y := 3276800, active := true }

/-- Scenario A: the player after `n` ticks of `player_update` without thrust, starting
from `player_init`; `states n` is the game state handed to the call of tick `n`. -/
def player_free_fall {W A : Type} (cfg : Config) (ext : Externals W A)
    (states : Nat → GameState W A) : Nat → Player
  | 0 => player_init cfg
  | n + 1 => player_update cfg ext (player_free_fall cfg ext states n) (states n) false

/-- The state after `n` ticks of `game_state_update` from `game_state_init`, tick `k`
being run with thrust flag `inputs k`: the states reachable by ticks. -/
def game_state_run {W A : Type} (cfg : Config) (ext : Externals W A) (inputs : Nat → Bool) :
    Nat → GameState W A
  | 0 => game_state_init cfg ext
  | n + 1 => game_state_update cfg ext (game_state_run cfg ext inputs n) (inputs n)

/-- The local `_x` of `player_update`: the index `(int) state->player.position.x` at
which `state->wave.points` is read. -/
def path_index {W A : Type} (cfg : Config) (state : GameState W A) : Int :=
  float_to_int (f22_to_float cfg state.player.position.x)

/-- The assignment `player->rotation = (player->rotation - target_rotation) * 0.1f` of
`player_update`, before the clamp. -/
def rotation_step (target_rotation rotation : ℚ) : ℚ :=
  (rotation - target_rotation) * 0.1

/-- The rotations produced by repeating `rotation_step` with a fixed target rotation `t`
from the starting rotation `r0`. -/
def rotation_seq (t r0 : ℚ) : Nat → ℚ
  | 0 => r0
  | n + 1 => rotation_step t (rotation_seq t r0 n)

/-- First stage of a tick in the words of the specification: the path advances, fed the
player's screen y computed from the player and camera as they are before the tick. -/
def tick_path_advance {W A : Type} (cfg : Config) (ext : Externals W A)
    (state : GameState W A) : GameState W A :=
  { state with
    wave := ext.wave_update state.wave
      (player_get_screen_position cfg state.player state.camera_y_offset).y }

/-- Second stage of a tick: the asteroid system is updated against the current path. -/
def tick_asteroid_update {W A : Type} (ext : Externals W A) (state : GameState W A) :
    GameState W A :=
  { state with
    asteroid_system := ext.asteroid_system_update state.asteroid_system state.wave }

/-- Third stage of a tick: the player is updated against the current state. -/
def tick_player_update {W A : Type} (cfg : Config) (ext : Externals W A)
    (state : GameState W A) (thrust : Bool) : GameState W A :=
  { state with player := player_update cfg ext state.player state thrust }

/-- Fifth stage of a tick (the fourth is `update_camera`): `obstacle_update` on every
active obstacle. -/
def tick_obstacle_update {W A : Type} (cfg : Config) (state : GameState W A) :
    GameState W A :=
  { state with
    obstacles := state.obstacles.map fun o => if o.active then obstacle_update cfg o else o }

/-- Sample collaborators with a path far below the screen: every path sample is at world
height 60300.75. -/
def farExt : Externals Unit Unit :=
  { wave_point_y := fun _ _ => 3951869952
    wave_init := ()
    wave_update := fun w _ => w
    asteroid_system_init := ()
    asteroid_system_update := fun a _ => a
    asteroid_system_check_collision := fun _ _ => false }

/-- A player of the sample configuration falling at the maximal velocity 8 with rotation
400/9 degrees. -/
def terminalPlayer : Player :=
  { position := { x := 26214400, y := 19660800 }
    velocity := { x := 0, y := 524288 }
    rotation := 400 / 9 }

/-- A state of the sample configuration with the player on screen at height 180, in the
gap between `EDGE_BUFFER` and `RETURN_BUFFER`, camera offset 0 and camera target 100. -/
def gapState : GameState Unit Unit := sampleState 26214400 11796480 0 0 6553600

/-- A game context of the sample configuration at start-up: initial game state, empty
accumulator, last frame at time 0. -/
def sampleContext : GameContext Unit Unit :=
  { quit := false
    thrust_active := false
    game_state := game_state_init sampleConfig sampleExt
    last_frame_time := 0
    delta_time := 0
    accumulated_time := 0
    target_fps := 60
    frame_time := 1000 / 60 }

/-! ## Basic facts about the fixed-point operations -/

theorem f22_one_pos (cfg : Config) : (0 : ℚ) < (f22_one cfg : ℚ) := by
  have h : (0 : Int) < f22_one cfg := by
    unfold f22_one
    positivity
  exact_mod_cast h

theorem f22_to_float_lt_iff (cfg : Config) (a b : F22) :
    f22_to_float cfg a < f22_to_float cfg b ↔ a < b := by
  unfold f22_to_float
  rw [div_lt_div_iff_of_pos_right (f22_one_pos cfg)]
  exact Int.cast_lt

theorem f22_to_float_le_iff (cfg : Config) (a b : F22) :
    f22_to_float cfg a ≤ f22_to_float cfg b ↔ a ≤ b := by
  unfold f22_to_float
  rw [div_le_div_iff_of_pos_right (f22_one_pos cfg)]
  exact Int.cast_le

theorem f22_to_float_sub (cfg : Config) (a b : F22) :
    f22_to_float cfg (f22_sub a b) = f22_to_float cfg a - f22_to_float cfg b := by
  unfold f22_to_float f22_sub
  push_cast
  ring

theorem f22_to_float_add (cfg : Config) (a b : F22) :
    f22_to_float cfg (f22_add a b) = f22_to_float cfg a + f22_to_float cfg b := by
  unfold f22_to_float f22_add
  push_cast
  ring

theorem float_to_int_intCast (n : Int) : float_to_int (n : ℚ) = n := by
  unfold float_to_int
  split <;> simp

/-- Converting a whole number to fixed point is exact. -/
theorem f22_from_float_intCast (cfg : Config) (n : Int) :
    f22_from_float cfg (n : ℚ) = n * f22_one cfg := by
  unfold f22_from_float
  rw [← Int.cast_mul, float_to_int_intCast]

theorem f22_to_float_from_float_intCast (cfg : Config) (n : Int) :
    f22_to_float cfg (f22_from_float cfg (n : ℚ)) = n := by
  rw [f22_from_float_intCast]
  unfold f22_to_float
  push_cast
  exact mul_div_cancel_right₀ _ (f22_one_pos cfg).ne.symm

theorem f22_mul_zero_left (cfg : Config) (b : F22) : f22_mul cfg 0 b = 0 := by
  simp [f22_mul]

/-! ## Vertical physics of `player_update` -/

theorem clamp_chain_eq_clamp_spec (v lo hi : F22) (h : lo ≤ hi) :
    (if hi < v then hi else if v < lo then lo else v) = clamp_spec v lo hi := by
  unfold clamp_spec
  split_ifs with h1 h2
  · rw [min_eq_right h1.le, max_eq_right h]
  · rw [min_eq_left (not_lt.mp h1), max_eq_left h2.le]
  · rw [min_eq_left (not_lt.mp h1), max_eq_right (not_lt.mp h2)]

theorem clamped_velocity_y_eq (cfg : Config) (player : Player) (thrust : Bool) :
    clamped_velocity_y cfg player thrust =
      if cfg.MAX_VELOCITY < raw_velocity_y cfg player thrust then cfg.MAX_VELOCITY
      else if raw_velocity_y cfg player thrust < cfg.MIN_VELOCITY then cfg.MIN_VELOCITY
      else raw_velocity_y cfg player thrust := by
  simp only [clamped_velocity_y, gt_iff_lt, f22_to_float_lt_iff]

theorem clamped_velocity_y_bounds (cfg : Config) (player : Player) (thrust : Bool)
    (h : cfg.MIN_VELOCITY ≤ cfg.MAX_VELOCITY) :
    cfg.MIN_VELOCITY ≤ clamped_velocity_y cfg player thrust ∧
      clamped_velocity_y cfg player thrust ≤ cfg.MAX_VELOCITY := by
  rw [clamped_velocity_y_eq]
  split_ifs with h1 h2
  · exact ⟨h, le_refl _⟩
  · exact ⟨le_refl _, h⟩
  · exact ⟨not_lt.mp h2, not_lt.mp h1⟩

theorem player_update_velocity_y {W A : Type} (cfg : Config) (ext : Externals W A)
    (player : Player) (state : GameState W A) (thrust : Bool) :
    (player_update cfg ext player state thrust).velocity.y =
      clamped_velocity_y cfg player thrust := rfl

theorem player_update_position_y {W A : Type} (cfg : Config) (ext : Externals W A)
    (player : Player) (state : GameState W A) (thrust : Bool) :
    (player_update cfg ext player state thrust).position.y =
      f22_add player.position.y (clamped_velocity_y cfg player thrust) := rfl

theorem game_state_update_player {W A : Type} (cfg : Config) (ext : Externals W A)
    (state : GameState W A) (thrust : Bool) :
    (game_state_update cfg ext state thrust).player =
      player_update cfg ext state.player
        { state with
          wave := ext.wave_update state.wave
            (player_get_screen_position cfg state.player state.camera_y_offset).y
          asteroid_system := ext.asteroid_system_update state.asteroid_system
            (ext.wave_update state.wave
              (player_get_screen_position cfg state.player state.camera_y_offset).y) }
        thrust := rfl

/-- C1: after `player_update`, for either value of the thrust flag, the vertical velocity
lies in `[MIN_VELOCITY, MAX_VELOCITY]` (as raw fixed-point values and as floats), given
`MIN_VELOCITY ≤ MAX_VELOCITY`; the same holds for the player after a `game_state_update`
tick. -/
theorem C1_velocity_clamp {W A : Type} (cfg : Config) (ext : Externals W A)
    (player : Player) (state : GameState W A) (thrust : Bool)
    (h : cfg.MIN_VELOCITY ≤ cfg.MAX_VELOCITY) :
    (cfg.MIN_VELOCITY ≤ (player_update cfg ext player state thrust).velocity.y ∧
      (player_update cfg ext player state thrust).velocity.y ≤ cfg.MAX_VELOCITY) ∧
    (f22_to_float cfg cfg.MIN_VELOCITY ≤
        f22_to_float cfg (player_update cfg ext player state thrust).velocity.y ∧
      f22_to_float cfg (player_update cfg ext player state thrust).velocity.y ≤
        f22_to_float cfg cfg.MAX_VELOCITY) ∧
    (cfg.MIN_VELOCITY ≤ (game_state_update cfg ext state thrust).player.velocity.y ∧
      (game_state_update cfg ext state thrust).player.velocity.y ≤ cfg.MAX_VELOCITY) := by
  refine ⟨?_, ?_, ?_⟩
  · rw [player_update_velocity_y]
    exact clamped_velocity_y_bounds cfg player thrust h
  · rw [player_update_velocity_y, f22_to_float_le_iff, f22_to_float_le_iff]
    exact clamped_velocity_y_bounds cfg player thrust h
  · rw [game_state_update_player, player_update_velocity_y]
    exact clamped_velocity_y_bounds cfg state.player thrust h

/-- C1 on the sample configuration: a player already at the maximal velocity that keeps
falling stays at `MAX_VELOCITY`. -/
theorem C1_velocity_clamp_witness :
    sampleConfig.MIN_VELOCITY ≤ sampleConfig.MAX_VELOCITY ∧
    (sampleConfig.MIN_VELOCITY ≤
        (game_state_update sampleConfig sampleExt
          (sampleState 26214400 19660800 524288 0 0) false).player.velocity.y ∧
      (game_state_update sampleConfig sampleExt
          (sampleState 26214400 19660800 524288 0 0) false).player.velocity.y ≤
        sampleConfig.MAX_VELOCITY) :=
  ⟨by decide,
    (C1_velocity_clamp sampleConfig sampleExt
      (sampleState 26214400 19660800 524288 0 0).player
      (sampleState 26214400 19660800 524288 0 0) false (by decide)).2.2⟩

/-- C4: in `player_update` the new `velocity.y` is the old one plus `GRAVITY`, minus
`THRUST` when thrusting, clamped into `[MIN_VELOCITY, MAX_VELOCITY]`, and the new
`position.y` is the old `position.y` plus that already clamped velocity, all in raw
fixed-point arithmetic (given `MIN_VELOCITY ≤ MAX_VELOCITY`, so that the interval is not
empty). -/
theorem C4_vertical_integration {W A : Type} (cfg : Config) (ext : Externals W A)
    (player : Player) (state : GameState W A) (thrust : Bool)
    (h : cfg.MIN_VELOCITY ≤ cfg.MAX_VELOCITY) :
    (player_update cfg ext player state thrust).velocity.y =
        clamp_spec (player.velocity.y + cfg.GRAVITY - (if thrust then cfg.THRUST else 0))
          cfg.MIN_VELOCITY cfg.MAX_VELOCITY ∧
    (player_update cfg ext player state thrust).position.y =
        player.position.y + (player_update cfg ext player state thrust).velocity.y := by
  refine ⟨?_, rfl⟩
  rw [player_update_velocity_y, clamped_velocity_y_eq]
  have hraw : raw_velocity_y cfg player thrust =
      player.velocity.y + cfg.GRAVITY - (if thrust then cfg.THRUST else 0) := by
    cases thrust <;> simp [raw_velocity_y, f22_add, f22_sub]
  rw [hraw]
  exact clamp_chain_eq_clamp_spec _ _ _ h

/-- C4 on the sample configuration: thrusting from velocity 1/4 gives velocity 0 and the
height does not change. -/
theorem C4_vertical_integration_witness :
    sampleConfig.MIN_VELOCITY ≤ sampleConfig.MAX_VELOCITY ∧
    (player_update sampleConfig sampleExt (sampleState 26214400 19660800 16384 0 0).player
        (sampleState 26214400 19660800 16384 0 0) true).velocity.y =
      clamp_spec ((16384 : F22) + 16384 - 32768) (-524288) 524288 :=
  ⟨by decide,
    (C4_vertical_integration sampleConfig sampleExt
      (sampleState 26214400 19660800 16384 0 0).player
      (sampleState 26214400 19660800 16384 0 0) true (by decide)).1⟩

/-! ## Collision check -/

theorem check_obstacles_eq_true_iff (cfg : Config) (player_pos : ScreenPos)
    (obstacles : List Obstacle) :
    check_obstacles cfg player_pos obstacles = true ↔
      ∃ o ∈ obstacles, o.active = true ∧ obstacle_hit cfg player_pos o = true := by
  induction obstacles with
  | nil => simp [check_obstacles]
  | cons o rest ih =>
    unfold check_obstacles
    cases hact : o.active <;> cases hhit : obstacle_hit cfg player_pos o <;>
      simp [hact, hhit, ih]

/-- C2: `game_state_check_collisions` returns true exactly when the player's world x is
below `GAME_OVER_X`, or `asteroid_system_check_collision` reports a hit, or some active
obstacle of the array is hit; and when the player's x is below `GAME_OVER_X` the result is
true whatever the asteroid system and the obstacles are. -/
theorem C2_check_collisions_iff {W A : Type} (cfg : Config) (ext : Externals W A)
    (state : GameState W A) :
    ((game_state_check_collisions cfg ext state).1 = true ↔
      (f22_to_float cfg state.player.position.x < cfg.GAME_OVER_X ∨
        ext.asteroid_system_check_collision state.asteroid_system state.player = true ∨
        ∃ o ∈ state.obstacles, o.active = true ∧
          obstacle_hit cfg
            (player_get_screen_position cfg state.player state.camera_y_offset) o = true)) ∧
    (f22_to_float cfg state.player.position.x < cfg.GAME_OVER_X →
      ∀ (asteroids : A) (obstacles : List Obstacle),
        (game_state_check_collisions cfg ext
          { state with asteroid_system := asteroids, obstacles := obstacles }).1 = true) := by
  constructor
  · unfold game_state_check_collisions
    by_cases hx : f22_to_float cfg state.player.position.x < cfg.GAME_OVER_X
    · simp [hx]
    · by_cases ha : ext.asteroid_system_check_collision state.asteroid_system state.player = true
      · simp [hx, ha]
      · simp [hx, ha, check_obstacles_eq_true_iff]
  · intro hx asteroids obstacles
    unfold game_state_check_collisions
    simp [hx]

/-- C3: `game_state_check_collisions` leaves the whole game state (player, camera
offsets, wave, asteroid system, obstacles, score) as it was, whatever it returns. -/
theorem C3_check_collisions_read_only {W A : Type} (cfg : Config) (ext : Externals W A)
    (state : GameState W A) :
    (game_state_check_collisions cfg ext state).2 = state := by
  unfold game_state_check_collisions
  split_ifs <;> rfl

/-! ## Camera -/

theorem camera_target_in_band {W A : Type} (cfg : Config) (state : GameState W A)
    (h1 : RETURN_BUFFER < camera_player_screen_y cfg state)
    (h2 : camera_player_screen_y cfg state < (cfg.WINDOW_HEIGHT : ℚ) - RETURN_BUFFER) :
    camera_target cfg state = state.camera_y_offset := by
  unfold camera_target
  have e1 : ¬ camera_player_screen_y cfg state < EDGE_BUFFER := by
    unfold EDGE_BUFFER
    unfold RETURN_BUFFER at h1
    linarith
  have e2 : ¬ camera_player_screen_y cfg state > (cfg.WINDOW_HEIGHT : ℚ) - EDGE_BUFFER := by
    unfold EDGE_BUFFER
    unfold RETURN_BUFFER at h2
    linarith
  simp only [e1, e2, if_false]
  rw [if_pos ⟨h1, h2⟩]

theorem update_camera_in_band {W A : Type} (cfg : Config) (state : GameState W A)
    (h1 : RETURN_BUFFER < camera_player_screen_y cfg state)
    (h2 : camera_player_screen_y cfg state < (cfg.WINDOW_HEIGHT : ℚ) - RETURN_BUFFER) :
    (update_camera cfg state).target_y_offset = state.camera_y_offset ∧
      (update_camera cfg state).camera_y_offset = state.camera_y_offset := by
  have h : camera_target cfg state = state.camera_y_offset :=
    camera_target_in_band cfg state h1 h2
  refine ⟨h, ?_⟩
  simp only [update_camera, h, f22_sub, sub_self, f22_mul_zero_left, f22_add, add_zero]

/-- C5 (as amended): when the player's on-screen vertical position lies strictly inside
the inner band `(RETURN_BUFFER, WINDOW_HEIGHT - RETURN_BUFFER)`, `update_camera` sets
`target_y_offset` to the value `camera_y_offset` had before the call; so it leaves
`target_y_offset` unchanged exactly when the target already equalled `camera_y_offset`.
That is the case on the next call whenever the player, moved anywhere inside the band,
is still inside it: from the second consecutive in-band call on the target stays put. -/
theorem C5_target_reset_in_band {W A : Type} (cfg : Config) (state : GameState W A)
    (h1 : RETURN_BUFFER < camera_player_screen_y cfg state)
    (h2 : camera_player_screen_y cfg state < (cfg.WINDOW_HEIGHT : ℚ) - RETURN_BUFFER) :
    (update_camera cfg state).target_y_offset = state.camera_y_offset ∧
    ((update_camera cfg state).target_y_offset = state.target_y_offset ↔
      state.target_y_offset = state.camera_y_offset) ∧
    (∀ player : Player,
      RETURN_BUFFER <
          camera_player_screen_y cfg { update_camera cfg state with player := player } →
      camera_player_screen_y cfg { update_camera cfg state with player := player } <
          (cfg.WINDOW_HEIGHT : ℚ) - RETURN_BUFFER →
      (update_camera cfg { update_camera cfg state with player := player }).target_y_offset =
        (update_camera cfg state).target_y_offset) := by
  have h := update_camera_in_band cfg state h1 h2
  refine ⟨h.1, ?_, ?_⟩
  · rw [h.1]
    exact eq_comm
  · intro player g1 g2
    have g := update_camera_in_band cfg { update_camera cfg state with player := player } g1 g2
    rw [g.1, h.1]
    exact h.2

/-- C6: when the player's on-screen vertical position lies strictly between
`RETURN_BUFFER` and `WINDOW_HEIGHT - RETURN_BUFFER`, `update_camera` leaves
`camera_y_offset` as it was. -/
theorem C6_camera_steady_in_band {W A : Type} (cfg : Config) (state : GameState W A)
    (h1 : RETURN_BUFFER < camera_player_screen_y cfg state)
    (h2 : camera_player_screen_y cfg state < (cfg.WINDOW_HEIGHT : ℚ) - RETURN_BUFFER) :
    (update_camera cfg state).camera_y_offset = state.camera_y_offset :=
  (update_camera_in_band cfg state h1 h2).2

/-- C7: if the player's on-screen y is below `EDGE_BUFFER` (150), `update_camera` sets
`target_y_offset` to `position.y - 150`; if it is above `WINDOW_HEIGHT - 150` it sets
`target_y_offset` to `position.y - (WINDOW_HEIGHT - 150)`; in both cases
`position.y - target_y_offset` is exactly the buffer line. The window is at least 300
high, so that the two edge bands do not overlap. -/
theorem C7_camera_edge_follow {W A : Type} (cfg : Config) (state : GameState W A)
    (hH : 300 ≤ cfg.WINDOW_HEIGHT) :
    (camera_player_screen_y cfg state < EDGE_BUFFER →
      (update_camera cfg state).target_y_offset =
          f22_sub state.player.position.y (f22_from_float cfg 150) ∧
        f22_to_float cfg
          (f22_sub state.player.position.y (update_camera cfg state).target_y_offset) =
            150) ∧
    (camera_player_screen_y cfg state > (cfg.WINDOW_HEIGHT : ℚ) - EDGE_BUFFER →
      (update_camera cfg state).target_y_offset =
          f22_sub state.player.position.y
            (f22_from_float cfg ((cfg.WINDOW_HEIGHT : ℚ) - 150)) ∧
        f22_to_float cfg
          (f22_sub state.player.position.y (update_camera cfg state).target_y_offset) =
            (cfg.WINDOW_HEIGHT : ℚ) - 150) := by
  have hH' : (300 : ℚ) ≤ (cfg.WINDOW_HEIGHT : ℚ) := by exact_mod_cast hH
  constructor
  · intro h
    have ht : (update_camera cfg state).target_y_offset =
        f22_sub state.player.position.y (f22_from_float cfg 150) := by
      show camera_target cfg state = _
      unfold camera_target
      rw [if_pos h]
      rfl
    refine ⟨ht, ?_⟩
    rw [ht]
    have e := f22_to_float_from_float_intCast cfg 150
    simp only [Int.cast_ofNat] at e
    simp only [f22_sub, sub_sub_cancel]
    exact e
  · intro h
    have hn : ¬ camera_player_screen_y cfg state < EDGE_BUFFER := by
      unfold EDGE_BUFFER at h ⊢
      linarith
    have ht : (update_camera cfg state).target_y_offset =
        f22_sub state.player.position.y
          (f22_from_float cfg ((cfg.WINDOW_HEIGHT : ℚ) - 150)) := by
      show camera_target cfg state = _
      unfold camera_target
      rw [if_neg hn, if_pos h]
      rfl
    refine ⟨ht, ?_⟩
    rw [ht]
    have e := f22_to_float_from_float_intCast cfg (cfg.WINDOW_HEIGHT - 150)
    simp only [Int.cast_sub, Int.cast_ofNat] at e
    simp only [f22_sub, sub_sub_cancel]
    exact e

theorem bandState_screen_y : camera_player_screen_y sampleConfig bandState = 300 := by
  norm_num [camera_player_screen_y, f22_to_float, f22_one, sampleConfig, bandState,
    sampleState]

theorem topState_screen_y : camera_player_screen_y sampleConfig topState = 100 := by
  norm_num [camera_player_screen_y, f22_to_float, f22_one, sampleConfig, topState,
    sampleState]

theorem bottomState_screen_y : camera_player_screen_y sampleConfig bottomState = 500 := by
  norm_num [camera_player_screen_y, f22_to_float, f22_one, sampleConfig, bottomState,
    sampleState]

theorem bandState_in_band :
    RETURN_BUFFER < camera_player_screen_y sampleConfig bandState ∧
      camera_player_screen_y sampleConfig bandState <
        (sampleConfig.WINDOW_HEIGHT : ℚ) - RETURN_BUFFER := by
  rw [bandState_screen_y]
  norm_num [RETURN_BUFFER, sampleConfig]

/-- C5 (as stated) fails: with the player on screen at height 300, inside the inner band
(200, 400), camera offset 0 and camera target 100, `update_camera` changes the target
(to 0). -/
theorem C5_target_changes_counterexample :
    RETURN_BUFFER < camera_player_screen_y sampleConfig bandState ∧
    camera_player_screen_y sampleConfig bandState <
      (sampleConfig.WINDOW_HEIGHT : ℚ) - RETURN_BUFFER ∧
    (update_camera sampleConfig bandState).target_y_offset = 0 ∧
    bandState.target_y_offset = 6553600 ∧
    (update_camera sampleConfig bandState).target_y_offset ≠ bandState.target_y_offset := by
  have h : (update_camera sampleConfig bandState).target_y_offset = 0 :=
    camera_target_in_band sampleConfig bandState bandState_in_band.1 bandState_in_band.2
  refine ⟨bandState_in_band.1, bandState_in_band.2, h, rfl, ?_⟩
  rw [h]
  decide

/-- C5 (as amended) on the sample state: the target becomes the camera offset 0. -/
theorem C5_target_reset_in_band_witness :
    (RETURN_BUFFER < camera_player_screen_y sampleConfig bandState ∧
      camera_player_screen_y sampleConfig bandState <
        (sampleConfig.WINDOW_HEIGHT : ℚ) - RETURN_BUFFER) ∧
    (update_camera sampleConfig bandState).target_y_offset = bandState.camera_y_offset :=
  ⟨bandState_in_band,
    (C5_target_reset_in_band sampleConfig bandState bandState_in_band.1
      bandState_in_band.2).1⟩

/-- C6 on the sample state: the camera offset stays at 0. -/
theorem C6_camera_steady_in_band_witness :
    (RETURN_BUFFER < camera_player_screen_y sampleConfig bandState ∧
      camera_player_screen_y sampleConfig bandState <
        (sampleConfig.WINDOW_HEIGHT : ℚ) - RETURN_BUFFER) ∧
    (update_camera sampleConfig bandState).camera_y_offset = 0 :=
  ⟨bandState_in_band,
    C6_camera_steady_in_band sampleConfig bandState bandState_in_band.1 bandState_in_band.2⟩

/-- C7 on the sample states: at the top of the screen the player ends 150 above the
target, at the bottom 450. -/
theorem C7_camera_edge_follow_witness :
    (300 : Int) ≤ sampleConfig.WINDOW_HEIGHT ∧
    f22_to_float sampleConfig
      (f22_sub topState.player.position.y
        (update_camera sampleConfig topState).target_y_offset) = 150 ∧
    f22_to_float sampleConfig
      (f22_sub bottomState.player.position.y
        (update_camera sampleConfig bottomState).target_y_offset) =
          (sampleConfig.WINDOW_HEIGHT : ℚ) - 150 :=
  ⟨by decide,
    ((C7_camera_edge_follow sampleConfig topState (by decide)).1
      (by rw [topState_screen_y]; norm_num [EDGE_BUFFER])).2,
    ((C7_camera_edge_follow sampleConfig bottomState (by decide)).2
      (by rw [bottomState_screen_y]; norm_num [EDGE_BUFFER, sampleConfig])).2⟩

/-- C2 on a sample state: a player at world x = 0, left of `GAME_OVER_X` = 100, is
reported as collided. -/
theorem C2_check_collisions_iff_witness :
    (game_state_check_collisions sampleConfig sampleExt
      (sampleState 0 19660800 0 0 0)).1 = true :=
  (C2_check_collisions_iff sampleConfig sampleExt (sampleState 0 19660800 0 0 0)).1.2
    (Or.inl (by norm_num [f22_to_float, f22_one, sampleConfig, sampleState]))

/-! ## Rotation and horizontal steering of `player_update` -/

/-- C8: after `player_update`, for either value of the thrust flag, the rotation lies in
`[-(55 - SCROLL_SPEED), 55 - SCROLL_SPEED]`, given `SCROLL_SPEED ≤ 55`. -/
theorem C8_rotation_clamp {W A : Type} (cfg : Config) (ext : Externals W A)
    (player : Player) (state : GameState W A) (thrust : Bool)
    (h : cfg.SCROLL_SPEED ≤ 55) :
    -(55 - cfg.SCROLL_SPEED) ≤ (player_update cfg ext player state thrust).rotation ∧
      (player_update cfg ext player state thrust).rotation ≤ 55 - cfg.SCROLL_SPEED := by
  have hrot : ∀ r : ℚ, -(55 - cfg.SCROLL_SPEED) ≤
        max (-55 + cfg.SCROLL_SPEED) (min (55 - cfg.SCROLL_SPEED) r) ∧
      max (-55 + cfg.SCROLL_SPEED) (min (55 - cfg.SCROLL_SPEED) r) ≤
        55 - cfg.SCROLL_SPEED := by
    intro r
    constructor
    · have := le_max_left (-55 + cfg.SCROLL_SPEED) (min (55 - cfg.SCROLL_SPEED) r)
      linarith
    · apply max_le
      · linarith
      · exact min_le_left _ _
  exact hrot _

/-- C8 on the sample configuration (`SCROLL_SPEED` = 5): a player spinning at 1000
degrees is brought back into [-50, 50]. -/
theorem C8_rotation_clamp_witness :
    sampleConfig.SCROLL_SPEED ≤ 55 ∧
    (-(55 - sampleConfig.SCROLL_SPEED) ≤
        (player_update sampleConfig sampleExt
          { bandState.player with rotation := 1000 } bandState false).rotation ∧
      (player_update sampleConfig sampleExt
          { bandState.player with rotation := 1000 } bandState false).rotation ≤
        55 - sampleConfig.SCROLL_SPEED) :=
  ⟨by norm_num [sampleConfig],
    C8_rotation_clamp sampleConfig sampleExt { bandState.player with rotation := 1000 }
      bandState false (by norm_num [sampleConfig])⟩

theorem move_amount_eq (d : ℚ) : move_amount d = 1 - 7 * d := by
  unfold move_amount
  ring

theorem move_amount_strictAnti : StrictAnti move_amount := by
  intro a b hab
  rw [move_amount_eq, move_amount_eq]
  linarith

theorem normalized_distance_nonneg {W A : Type} (cfg : Config) (ext : Externals W A)
    (player : Player) (state : GameState W A) (thrust : Bool)
    (hH : 0 < cfg.WINDOW_HEIGHT) :
    0 ≤ normalized_distance cfg ext player state thrust := by
  unfold normalized_distance
  have : (0 : ℚ) < (cfg.WINDOW_HEIGHT : ℚ) := by exact_mod_cast hH
  exact div_nonneg (abs_nonneg _) this.le

theorem float_to_int_nonneg {f : ℚ} (h : 0 ≤ f) : 0 ≤ float_to_int f := by
  unfold float_to_int
  rw [if_pos h]
  exact Int.floor_nonneg.mpr h

theorem float_to_int_nonpos {f : ℚ} (h : f ≤ 0) : float_to_int f ≤ 0 := by
  unfold float_to_int
  split_ifs with h0
  · have : f = 0 := le_antisymm h h0
    simp [this]
  · exact Int.ceil_le.mpr (by simpa using h)

/-- Truncation toward zero moves a value by less than one. -/
theorem float_to_int_abs_sub_lt (f : ℚ) : |(float_to_int f : ℚ) - f| < 1 := by
  unfold float_to_int
  rw [abs_lt]
  split_ifs with h0
  · have h1 := Int.floor_le f
    have h2 := Int.lt_floor_add_one f
    constructor <;> linarith
  · have h1 := Int.le_ceil f
    have h2 := Int.ceil_lt_add_one f
    constructor <;> linarith

theorem f22_from_float_nonneg (cfg : Config) {f : ℚ} (h : 0 ≤ f) :
    0 ≤ f22_from_float cfg f :=
  float_to_int_nonneg (mul_nonneg h (f22_one_pos cfg).le)

theorem f22_from_float_nonpos (cfg : Config) {f : ℚ} (h : f ≤ 0) :
    f22_from_float cfg f ≤ 0 :=
  float_to_int_nonpos (mul_nonpos_of_nonpos_of_nonneg h (f22_one_pos cfg).le)

/-- Converting a float to fixed point and back loses less than one unit of least
precision. -/
theorem f22_round_trip_error (cfg : Config) (f : ℚ) :
    |f22_to_float cfg (f22_from_float cfg f) - f| < 1 / (f22_one cfg : ℚ) := by
  have hpos := f22_one_pos cfg
  have h := float_to_int_abs_sub_lt (f * (f22_one cfg : ℚ))
  unfold f22_to_float f22_from_float
  have e : (float_to_int (f * (f22_one cfg : ℚ)) : ℚ) / (f22_one cfg : ℚ) - f =
      ((float_to_int (f * (f22_one cfg : ℚ)) : ℚ) - f * (f22_one cfg : ℚ)) /
        (f22_one cfg : ℚ) := by
    field_simp
    ring
  rw [e, abs_div, abs_of_pos hpos]
  exact div_lt_div_of_pos_right h hpos

theorem player_update_position_x_left {W A : Type} (cfg : Config) (ext : Externals W A)
    (player : Player) (state : GameState W A) (thrust : Bool)
    (hx : f22_to_float cfg player.position.x < (cfg.WINDOW_WIDTH : ℚ) / 2) :
    (player_update cfg ext player state thrust).position.x =
      f22_add player.position.x
        (f22_from_float cfg (move_amount (normalized_distance cfg ext player state thrust))) := by
  show (if _ then _ else _) = _
  rw [if_pos hx]

theorem player_update_position_x_right {W A : Type} (cfg : Config) (ext : Externals W A)
    (player : Player) (state : GameState W A) (thrust : Bool)
    (hx : (cfg.WINDOW_WIDTH : ℚ) / 2 ≤ f22_to_float cfg player.position.x) :
    (player_update cfg ext player state thrust).position.x =
      if normalized_distance cfg ext player state thrust > 0.2 then
        f22_sub player.position.x (f22_from_float cfg 5)
      else f22_sub player.position.x (f22_from_float cfg 0) := by
  show (if _ then _ else _) = _
  rw [if_neg (not_lt.mpr hx)]

/-- C9: when the player's x is left of `WINDOW_WIDTH / 2`, `player_update` adds
`move = (1 - d) - 6 d = 1 - 7 d` (converted to fixed point) to `position.x`, where
`d = |pathY - playerY| / WINDOW_HEIGHT` uses the already updated `position.y`; `move` is
linear and strictly decreasing in `d`, positive exactly when `d < 1/7`, negative exactly
when `d > 1/7`, and at most 1. The fixed-point step differs from `move` by less than one
unit of least precision and never has the opposite sign. -/
theorem C9_steering_left_of_mid {W A : Type} (cfg : Config) (ext : Externals W A)
    (player : Player) (state : GameState W A) (thrust : Bool)
    (hH : 0 < cfg.WINDOW_HEIGHT)
    (hx : f22_to_float cfg player.position.x < (cfg.WINDOW_WIDTH : ℚ) / 2) :
    (player_update cfg ext player state thrust).position.x =
        f22_add player.position.x
          (f22_from_float cfg
            (move_amount (normalized_distance cfg ext player state thrust))) ∧
    normalized_distance cfg ext player state thrust =
        |f22_to_float cfg (ext.wave_point_y state.wave
              (float_to_int (f22_to_float cfg state.player.position.x))) -
            f22_to_float cfg (player_update cfg ext player state thrust).position.y| /
          (cfg.WINDOW_HEIGHT : ℚ) ∧
    move_amount (normalized_distance cfg ext player state thrust) =
        1 - 7 * normalized_distance cfg ext player state thrust ∧
    move_amount (normalized_distance cfg ext player state thrust) ≤ 1 ∧
    (∀ d : ℚ, move_amount d = (1 - d) - 6 * d ∧ move_amount d = 1 - 7 * d) ∧
    StrictAnti move_amount ∧
    (∀ d : ℚ, 0 < move_amount d ↔ d < 1 / 7) ∧
    (∀ d : ℚ, move_amount d < 0 ↔ 1 / 7 < d) ∧
    (∀ d : ℚ, 0 ≤ d → move_amount d ≤ 1) ∧
    |f22_to_float cfg (player_update cfg ext player state thrust).position.x -
        f22_to_float cfg player.position.x -
        move_amount (normalized_distance cfg ext player state thrust)| <
      1 / (f22_one cfg : ℚ) ∧
    (normalized_distance cfg ext player state thrust ≤ 1 / 7 →
      player.position.x ≤ (player_update cfg ext player state thrust).position.x) ∧
    (1 / 7 ≤ normalized_distance cfg ext player state thrust →
      (player_update cfg ext player state thrust).position.x ≤ player.position.x) := by
  have hd := normalized_distance_nonneg cfg ext player state thrust hH
  have hpx := player_update_position_x_left cfg ext player state thrust hx
  refine ⟨hpx, rfl, move_amount_eq _, ?_, ?_, move_amount_strictAnti, ?_, ?_, ?_, ?_, ?_, ?_⟩
  · rw [move_amount_eq]
    linarith
  · intro d
    exact ⟨by unfold move_amount; ring, move_amount_eq d⟩
  · intro d
    rw [move_amount_eq]
    constructor <;> intro h <;> linarith
  · intro d
    rw [move_amount_eq]
    constructor <;> intro h <;> linarith
  · intro d h0
    rw [move_amount_eq]
    linarith
  · rw [hpx, f22_to_float_add, add_sub_cancel_left]
    exact f22_round_trip_error cfg _
  · intro h
    rw [hpx]
    have := f22_from_float_nonneg cfg
      (f := move_amount (normalized_distance cfg ext player state thrust))
      (by rw [move_amount_eq]; linarith)
    unfold f22_add
    linarith
  · intro h
    rw [hpx]
    have := f22_from_float_nonpos cfg
      (f := move_amount (normalized_distance cfg ext player state thrust))
      (by rw [move_amount_eq]; linarith)
    unfold f22_add
    linarith

/-- C9 on the sample configuration: a player at world x = 300 (left of the middle 400)
on the path height. -/
theorem C9_steering_left_of_mid_witness :
    (0 : Int) < sampleConfig.WINDOW_HEIGHT ∧
    f22_to_float sampleConfig (sampleState 19660800 19660800 0 0 0).player.position.x <
      (sampleConfig.WINDOW_WIDTH : ℚ) / 2 ∧
    (player_update sampleConfig sampleExt (sampleState 19660800 19660800 0 0 0).player
        (sampleState 19660800 19660800 0 0 0) false).position.x =
      f22_add 19660800
        (f22_from_float sampleConfig
          (move_amount (normalized_distance sampleConfig sampleExt
            (sampleState 19660800 19660800 0 0 0).player
            (sampleState 19660800 19660800 0 0 0) false))) :=
  ⟨by decide,
    by norm_num [f22_to_float, f22_one, sampleConfig, sampleState],
    (C9_steering_left_of_mid sampleConfig sampleExt
      (sampleState 19660800 19660800 0 0 0).player (sampleState 19660800 19660800 0 0 0)
      false (by decide)
      (by norm_num [f22_to_float, f22_one, sampleConfig, sampleState])).1⟩

/-- C10: when the player's x is at or right of `WINDOW_WIDTH / 2`, `player_update`
decreases `position.x` by exactly 5 world units if the normalized distance exceeds 0.2 and
otherwise leaves `position.x` exactly unchanged; `position.x` never increases. -/
theorem C10_steering_right_of_mid {W A : Type} (cfg : Config) (ext : Externals W A)
    (player : Player) (state : GameState W A) (thrust : Bool)
    (hx : (cfg.WINDOW_WIDTH : ℚ) / 2 ≤ f22_to_float cfg player.position.x) :
    (normalized_distance cfg ext player state thrust > 0.2 →
      (player_update cfg ext player state thrust).position.x =
          player.position.x - 5 * f22_one cfg ∧
        f22_to_float cfg (player_update cfg ext player state thrust).position.x =
          f22_to_float cfg player.position.x - 5) ∧
    (¬ normalized_distance cfg ext player state thrust > 0.2 →
      (player_update cfg ext player state thrust).position.x = player.position.x) ∧
    (player_update cfg ext player state thrust).position.x ≤ player.position.x := by
  have hpx := player_update_position_x_right cfg ext player state thrust hx
  have h5 : f22_from_float cfg 5 = 5 * f22_one cfg := by
    have e := f22_from_float_intCast cfg 5
    simpa using e
  have h0 : f22_from_float cfg 0 = 0 := by
    have e := f22_from_float_intCast cfg 0
    simpa using e
  have hone : (0 : Int) < f22_one cfg := by exact_mod_cast f22_one_pos cfg
  refine ⟨?_, ?_, ?_⟩
  · intro h
    rw [hpx, if_pos h, h5]
    refine ⟨rfl, ?_⟩
    unfold f22_sub f22_to_float
    push_cast
    field_simp
    ring
  · intro h
    rw [hpx, if_neg h, h0]
    simp [f22_sub]
  · rw [hpx]
    split_ifs
    · rw [h5]
      unfold f22_sub
      linarith
    · rw [h0]
      simp [f22_sub]

/-- C10 on the sample configuration: a player at world x = 400 (the middle) and at
height 500, far from the path at 300, is pushed left to x = 395. -/
theorem C10_steering_right_of_mid_witness :
    (sampleConfig.WINDOW_WIDTH : ℚ) / 2 ≤
      f22_to_float sampleConfig (sampleState 26214400 32768000 0 0 0).player.position.x ∧
    (player_update sampleConfig sampleExt (sampleState 26214400 32768000 0 0 0).player
        (sampleState 26214400 32768000 0 0 0) false).position.x ≤ 26214400 :=
  ⟨by norm_num [f22_to_float, f22_one, sampleConfig, sampleState],
    (C10_steering_right_of_mid sampleConfig sampleExt
      (sampleState 26214400 32768000 0 0 0).player (sampleState 26214400 32768000 0 0 0)
      false (by norm_num [f22_to_float, f22_one, sampleConfig, sampleState])).2.2⟩

/-! ## Obstacles -/

theorem obstacle_update_active (cfg : Config) (o : Obstacle) (h : o.active = true) :
    (obstacle_update cfg o).x = f22_sub o.x (f22_from_float cfg cfg.SCROLL_SPEED) ∧
    (obstacle_update cfg o).gap_y = o.gap_y ∧
    ((obstacle_update cfg o).active = false ↔
      f22_to_float cfg (obstacle_update cfg o).x < -(cfg.OBSTACLE_WIDTH : ℚ)) := by
  unfold obstacle_update
  simp only [h, Bool.not_true, Bool.false_eq_true, if_false]
  split_ifs with hx
  · exact ⟨rfl, rfl, by simpa using hx⟩
  · exact ⟨rfl, rfl, by simpa [h] using hx⟩

/-- C11: `obstacle_update` leaves an inactive obstacle completely unchanged; for an active
obstacle it subtracts `SCROLL_SPEED` (converted to fixed point) from `x`, keeps `gap_y`,
and deactivates it exactly when the new `x` is below `-OBSTACLE_WIDTH`; it never turns an
inactive obstacle active. The decrease is exactly `SCROLL_SPEED` whenever `SCROLL_SPEED`
is representable in fixed point, and within one unit of least precision always. -/
theorem C11_obstacle_update (cfg : Config) (o : Obstacle) :
    (o.active = false → obstacle_update cfg o = o) ∧
    (o.active = true →
      (obstacle_update cfg o).x = f22_sub o.x (f22_from_float cfg cfg.SCROLL_SPEED) ∧
      (obstacle_update cfg o).gap_y = o.gap_y ∧
      ((obstacle_update cfg o).active = false ↔
        f22_to_float cfg (obstacle_update cfg o).x < -(cfg.OBSTACLE_WIDTH : ℚ)) ∧
      ((∃ n : Int, cfg.SCROLL_SPEED * (f22_one cfg : ℚ) = n) →
        f22_to_float cfg (obstacle_update cfg o).x =
          f22_to_float cfg o.x - cfg.SCROLL_SPEED) ∧
      |f22_to_float cfg (obstacle_update cfg o).x -
          (f22_to_float cfg o.x - cfg.SCROLL_SPEED)| < 1 / (f22_one cfg : ℚ)) ∧
    ((obstacle_update cfg o).active = true → o.active = true) := by
  refine ⟨?_, ?_, ?_⟩
  · intro h
    simp [obstacle_update, h]
  · intro h
    obtain ⟨hx, hg, ha⟩ := obstacle_update_active cfg o h
    refine ⟨hx, hg, ha, ?_, ?_⟩
    · rintro ⟨n, hn⟩
      rw [hx, f22_to_float_sub]
      congr 1
      unfold f22_to_float f22_from_float
      rw [hn, float_to_int_intCast, ← hn]
      exact mul_div_cancel_right₀ _ (f22_one_pos cfg).ne.symm
    · rw [hx, f22_to_float_sub]
      have e := f22_round_trip_error cfg cfg.SCROLL_SPEED
      rw [abs_sub_comm] at e
      have e2 : f22_to_float cfg o.x - f22_to_float cfg (f22_from_float cfg cfg.SCROLL_SPEED) -
          (f22_to_float cfg o.x - cfg.SCROLL_SPEED) =
          cfg.SCROLL_SPEED - f22_to_float cfg (f22_from_float cfg cfg.SCROLL_SPEED) := by
        ring
      rw [e2]
      exact e
  · intro h
    by_contra hn
    have hf : o.active = false := by simpa using hn
    have : obstacle_update cfg o = o := by simp [obstacle_update, hf]
    rw [this] at h
    exact hn h

/-- C11 on the sample configuration: an active obstacle at world x = 10 moves to x = 5
and stays active (5 is not below -50). -/
theorem C11_obstacle_update_witness :
    sampleObstacle.active = true ∧
    (obstacle_update sampleConfig sampleObstacle).x =
      f22_sub 655360 (f22_from_float sampleConfig 5) ∧
    (obstacle_update sampleConfig sampleObstacle).gap_y = 3276800 :=
  ⟨rfl, ((C11_obstacle_update sampleConfig sampleObstacle).2.1 rfl).1,
    ((C11_obstacle_update sampleConfig sampleObstacle).2.1 rfl).2.1⟩

theorem obstacle_hit_iff_spec (cfg : Config) (player_pos : ScreenPos) (o : Obstacle) :
    obstacle_hit cfg player_pos o = true ↔ obstacle_hit_spec cfg player_pos o := by
  unfold obstacle_hit obstacle_hit_spec player_radius
  rw [Set.Icc_subset_Icc_iff (by linarith)]
  simp only [gt_iff_lt, not_and_or, not_le]
  constructor
  · intro h
    split_ifs at h with h1 h2
    · exact ⟨⟨h1.2, h1.1⟩, h2⟩
  · rintro ⟨⟨h1, h2⟩, h3⟩
    rw [if_pos ⟨h2, h1⟩, if_pos h3]

/-- Two non-degenerate intervals overlap strictly (their interiors meet) exactly when
each starts before the other ends. -/
theorem interiors_meet_iff (a b c d : ℚ) (hab : a < b) (hcd : c < d) :
    (Set.Ioo a b ∩ Set.Ioo c d).Nonempty ↔ a < d ∧ c < b := by
  rw [Set.Ioo_inter_Ioo, Set.nonempty_Ioo]
  simp only [max_lt_iff, lt_min_iff]
  constructor
  · rintro ⟨⟨-, h1⟩, h2, -⟩
    exact ⟨h2, h1⟩
  · rintro ⟨h1, h2⟩
    exact ⟨⟨hab, h2⟩, h1, hcd⟩

theorem sampleObstacle_screen :
    obstacle_get_screen_position sampleConfig sampleObstacle = { x := 10, y := 300 } := by
  have hx : f22_to_float sampleConfig sampleObstacle.x = ((10 : Int) : ℚ) := by
    norm_num [f22_to_float, f22_one, sampleConfig, sampleObstacle]
  have hy : (1 - f22_to_float sampleConfig sampleObstacle.gap_y / 100) *
      (sampleConfig.WINDOW_HEIGHT : ℚ) = ((300 : Int) : ℚ) := by
    norm_num [f22_to_float, f22_one, sampleConfig, sampleObstacle]
  unfold obstacle_get_screen_position
  rw [hx, hy, float_to_int_intCast, float_to_int_intCast]

/-- C12: inside `game_state_check_collisions` an active obstacle counts as hit exactly
when the player's horizontal extent `[px - 15, px + 15]` strictly overlaps the strip
`[ox, ox + OBSTACLE_WIDTH]` and the player's vertical extent `[py - 15, py + 15]` is not
contained in the gap band `[oy - 100, oy + 100]`; the obstacle loop reports a hit exactly
when some active obstacle satisfies this, so inactive obstacles never cause a hit. -/
theorem C12_obstacle_hit_predicate {W A : Type} (cfg : Config) (ext : Externals W A)
    (state : GameState W A) (player_pos : ScreenPos) (obstacles : List Obstacle) :
    (∀ o : Obstacle, obstacle_hit cfg player_pos o = true ↔
      obstacle_hit_spec cfg player_pos o) ∧
    (check_obstacles cfg player_pos obstacles = true ↔
      ∃ o ∈ obstacles, o.active = true ∧ obstacle_hit_spec cfg player_pos o) ∧
    ((∀ o ∈ obstacles, o.active = false) →
      check_obstacles cfg player_pos obstacles = false) ∧
    (¬ f22_to_float cfg state.player.position.x < cfg.GAME_OVER_X →
      ext.asteroid_system_check_collision state.asteroid_system state.player = false →
      ((game_state_check_collisions cfg ext state).1 = true ↔
        ∃ o ∈ state.obstacles, o.active = true ∧
          obstacle_hit_spec cfg
            (player_get_screen_position cfg state.player state.camera_y_offset) o)) ∧
    (0 < cfg.OBSTACLE_WIDTH → ∀ o : Obstacle,
      ((player_pos.x - 15 < (obstacle_get_screen_position cfg o).x + cfg.OBSTACLE_WIDTH ∧
          (obstacle_get_screen_position cfg o).x < player_pos.x + 15) ↔
        (Set.Ioo ((player_pos.x : ℚ) - 15) ((player_pos.x : ℚ) + 15) ∩
          Set.Ioo ((obstacle_get_screen_position cfg o).x : ℚ)
            (((obstacle_get_screen_position cfg o).x : ℚ) + (cfg.OBSTACLE_WIDTH : ℚ))
          ).Nonempty)) := by
  have hloop : ∀ (pp : ScreenPos) (l : List Obstacle),
      check_obstacles cfg pp l = true ↔
        ∃ o ∈ l, o.active = true ∧ obstacle_hit_spec cfg pp o := by
    intro pp l
    rw [check_obstacles_eq_true_iff]
    simp only [obstacle_hit_iff_spec]
  refine ⟨obstacle_hit_iff_spec cfg player_pos, hloop player_pos obstacles, ?_, ?_, ?_⟩
  · intro h
    rw [← Bool.not_eq_true, hloop]
    rintro ⟨o, ho, hact, -⟩
    rw [h o ho] at hact
    exact Bool.false_ne_true hact
  · intro hx ha
    unfold game_state_check_collisions
    simp only [hx, ha, if_false, Bool.false_eq_true]
    exact hloop _ _
  · intro hw o
    have hw' : (0 : ℚ) < (cfg.OBSTACLE_WIDTH : ℚ) := by exact_mod_cast hw
    rw [interiors_meet_iff _ _ _ _ (by linarith) (by linarith)]
    constructor
    · rintro ⟨h1, h2⟩
      exact ⟨by exact_mod_cast h1, by exact_mod_cast h2⟩
    · rintro ⟨h1, h2⟩
      exact ⟨by exact_mod_cast h1, by exact_mod_cast h2⟩

/-- C12 on the sample configuration: a player at screen position (20, 100) is hit by the
active sample obstacle at screen position (10, 300), whose gap band is [200, 400]; the
same obstacle switched off does not count. -/
theorem C12_obstacle_hit_predicate_witness :
    check_obstacles sampleConfig { x := 20, y := 100 } [sampleObstacle] = true ∧
    check_obstacles sampleConfig { x := 20, y := 100 }
      [{ sampleObstacle with active := false }] = false :=
  ⟨(C12_obstacle_hit_predicate sampleConfig sampleExt bandState { x := 20, y := 100 }
      [sampleObstacle]).2.1.2
      ⟨sampleObstacle, List.mem_singleton.mpr rfl, rfl, by
        unfold obstacle_hit_spec
        rw [sampleObstacle_screen, Set.Icc_subset_Icc_iff (by decide)]
        decide⟩,
    (C12_obstacle_hit_predicate sampleConfig sampleExt bandState { x := 20, y := 100 }
      [{ sampleObstacle with active := false }]).2.2.1
      (by
        intro o ho
        rw [List.mem_singleton.mp ho])⟩

/-! ## Scenario A: free fall -/

theorem f22_from_float_zero (cfg : Config) : f22_from_float cfg 0 = 0 := by
  have e := f22_from_float_intCast cfg 0
  simpa using e

theorem free_fall_velocity_succ {W A : Type} (cfg : Config) (ext : Externals W A)
    (states : Nat → GameState W A) (n : Nat) :
    (player_free_fall cfg ext states (n + 1)).velocity.y =
      if cfg.MAX_VELOCITY < (player_free_fall cfg ext states n).velocity.y + cfg.GRAVITY
      then cfg.MAX_VELOCITY
      else if (player_free_fall cfg ext states n).velocity.y + cfg.GRAVITY < cfg.MIN_VELOCITY
      then cfg.MIN_VELOCITY
      else (player_free_fall cfg ext states n).velocity.y + cfg.GRAVITY := by
  show clamped_velocity_y cfg (player_free_fall cfg ext states n) false = _
  rw [clamped_velocity_y_eq]
  rfl

theorem free_fall_position_succ {W A : Type} (cfg : Config) (ext : Externals W A)
    (states : Nat → GameState W A) (n : Nat) :
    (player_free_fall cfg ext states (n + 1)).position.y =
      (player_free_fall cfg ext states n).position.y +
        (player_free_fall cfg ext states (n + 1)).velocity.y := rfl

theorem free_fall_velocity_bounds {W A : Type} (cfg : Config) (ext : Externals W A)
    (states : Nat → GameState W A) (hG : 0 < cfg.GRAVITY) (hM : 0 < cfg.MAX_VELOCITY)
    (hmm : cfg.MIN_VELOCITY ≤ cfg.MAX_VELOCITY) (n : Nat) :
    0 ≤ (player_free_fall cfg ext states n).velocity.y ∧
      (player_free_fall cfg ext states n).velocity.y ≤ cfg.MAX_VELOCITY := by
  induction n with
  | zero =>
    show 0 ≤ f22_from_float cfg 0 ∧ f22_from_float cfg 0 ≤ cfg.MAX_VELOCITY
    rw [f22_from_float_zero]
    exact ⟨le_refl _, hM.le⟩
  | succ n ih =>
    rw [free_fall_velocity_succ]
    split_ifs with h1 h2
    · exact ⟨hM.le, le_refl _⟩
    · exact ⟨by linarith, hmm⟩
    · exact ⟨by linarith, not_lt.mp h1⟩

theorem free_fall_velocity_step {W A : Type} (cfg : Config) (ext : Externals W A)
    (states : Nat → GameState W A) (hG : 0 < cfg.GRAVITY) (hM : 0 < cfg.MAX_VELOCITY)
    (hmm : cfg.MIN_VELOCITY ≤ cfg.MAX_VELOCITY) (n : Nat) :
    (player_free_fall cfg ext states n).velocity.y ≤
        (player_free_fall cfg ext states (n + 1)).velocity.y ∧
      0 < (player_free_fall cfg ext states (n + 1)).velocity.y := by
  have hb := free_fall_velocity_bounds cfg ext states hG hM hmm n
  rw [free_fall_velocity_succ]
  split_ifs with h1 h2
  · exact ⟨hb.2, hM⟩
  · exact ⟨by linarith, by linarith⟩
  · exact ⟨by linarith, by linarith⟩

theorem free_fall_terminal {W A : Type} (cfg : Config) (ext : Externals W A)
    (states : Nat → GameState W A) (hG : 0 < cfg.GRAVITY) (n : Nat)
    (h : cfg.MAX_VELOCITY < (player_free_fall cfg ext states n).velocity.y + cfg.GRAVITY)
    (m : Nat) (hm : n < m) :
    (player_free_fall cfg ext states m).velocity.y = cfg.MAX_VELOCITY := by
  induction m with
  | zero => exact absurd hm (Nat.not_lt_zero n)
  | succ m ih =>
    rw [free_fall_velocity_succ]
    rcases Nat.lt_succ_iff_lt_or_eq.mp hm with hlt | heq
    · rw [ih hlt, if_pos (by linarith)]
    · rw [← heq, if_pos h]

theorem free_fall_velocity_lower {W A : Type} (cfg : Config) (ext : Externals W A)
    (states : Nat → GameState W A) (hG : 0 < cfg.GRAVITY) (n : Nat) :
    min ((n : Int) * cfg.GRAVITY) cfg.MAX_VELOCITY ≤
      (player_free_fall cfg ext states n).velocity.y := by
  induction n with
  | zero =>
    show _ ≤ f22_from_float cfg 0
    rw [f22_from_float_zero]
    simp
  | succ n ih =>
    rw [free_fall_velocity_succ]
    have hstep : min (((n + 1 : Nat) : Int) * cfg.GRAVITY) cfg.MAX_VELOCITY ≤
        min ((n : Int) * cfg.GRAVITY) cfg.MAX_VELOCITY + cfg.GRAVITY := by
      push_cast
      rcases le_total ((n : Int) * cfg.GRAVITY) cfg.MAX_VELOCITY with h | h
      · rw [min_eq_left h]
        exact le_trans (min_le_left _ _) (by linarith)
      · rw [min_eq_right h]
        exact le_trans (min_le_right _ _) (by linarith)
    split_ifs with h1 h2
    · exact min_le_right _ _
    · linarith
    · linarith

/-- C13: starting from `player_init` and applying `player_update` without thrust on every
tick, with `GRAVITY > 0`, `MAX_VELOCITY > 0` (and `MIN_VELOCITY ≤ MAX_VELOCITY`),
`position.y` strictly increases on every tick, `velocity.y` never decreases, and from the
first tick at which `velocity.y + GRAVITY` exceeds `MAX_VELOCITY` onwards `velocity.y`
equals `MAX_VELOCITY`; that terminal rate is reached after at most `MAX_VELOCITY` (raw)
ticks. -/
theorem C13_free_fall {W A : Type} (cfg : Config) (ext : Externals W A)
    (states : Nat → GameState W A) (hG : 0 < cfg.GRAVITY) (hM : 0 < cfg.MAX_VELOCITY)
    (hmm : cfg.MIN_VELOCITY ≤ cfg.MAX_VELOCITY) :
    (player_free_fall cfg ext states 0).position =
        { x := f22_from_float cfg 400, y := f22_from_float cfg 300 } ∧
    (player_free_fall cfg ext states 0).velocity = { x := 0, y := 0 } ∧
    (∀ n, (player_free_fall cfg ext states n).position.y <
        (player_free_fall cfg ext states (n + 1)).position.y) ∧
    (∀ n, (player_free_fall cfg ext states n).velocity.y ≤
        (player_free_fall cfg ext states (n + 1)).velocity.y) ∧
    (∀ n, cfg.MAX_VELOCITY < (player_free_fall cfg ext states n).velocity.y + cfg.GRAVITY →
      ∀ m, n < m → (player_free_fall cfg ext states m).velocity.y = cfg.MAX_VELOCITY) ∧
    (∀ m, cfg.MAX_VELOCITY.toNat ≤ m →
      (player_free_fall cfg ext states m).velocity.y = cfg.MAX_VELOCITY) := by
  refine ⟨rfl, ?_, ?_, ?_, ?_, ?_⟩
  · show ({ x := f22_from_float cfg 0, y := f22_from_float cfg 0 } : Vec2) = _
    rw [f22_from_float_zero]
  · intro n
    rw [free_fall_position_succ]
    have := (free_fall_velocity_step cfg ext states hG hM hmm n).2
    linarith
  · intro n
    exact (free_fall_velocity_step cfg ext states hG hM hmm n).1
  · intro n h m hm
    exact free_fall_terminal cfg ext states hG n h m hm
  · intro m hm
    apply le_antisymm (free_fall_velocity_bounds cfg ext states hG hM hmm m).2
    have hlow := free_fall_velocity_lower cfg ext states hG m
    have hm' : cfg.MAX_VELOCITY ≤ (m : Int) := by
      have h1 : (cfg.MAX_VELOCITY.toNat : Int) = cfg.MAX_VELOCITY := Int.toNat_of_nonneg hM.le
      have h2 : (cfg.MAX_VELOCITY.toNat : Int) ≤ (m : Int) := by exact_mod_cast hm
      linarith
    have hmG : cfg.MAX_VELOCITY ≤ (m : Int) * cfg.GRAVITY := by
      have hG1 : (1 : Int) ≤ cfg.GRAVITY := hG
      have h1 : (m : Int) * 1 ≤ (m : Int) * cfg.GRAVITY :=
        mul_le_mul_of_nonneg_left hG1 (Int.ofNat_nonneg m)
      linarith
    rw [min_eq_right hmG] at hlow
    exact hlow

/-- C13 on the sample configuration (gravity 1/4, maximal velocity 8): the first tick of
free fall moves the player down and the velocity is 8 from tick 524288 on. -/
theorem C13_free_fall_witness :
    (0 < sampleConfig.GRAVITY ∧ 0 < sampleConfig.MAX_VELOCITY ∧
      sampleConfig.MIN_VELOCITY ≤ sampleConfig.MAX_VELOCITY) ∧
    (player_free_fall sampleConfig sampleExt (fun _ => bandState) 0).position.y <
      (player_free_fall sampleConfig sampleExt (fun _ => bandState) 1).position.y :=
  ⟨by decide,
    (C13_free_fall sampleConfig sampleExt (fun _ => bandState) (by decide) (by decide)
      (by decide)).2.2.1 0⟩

/-! ## Tick order -/

/-- C14: `game_state_update` is the composition, in this order, of the path advance (fed
the player's screen y of the pre-tick player and camera), the asteroid update (on the
advanced path), `player_update`, `update_camera` and `obstacle_update` on each active
obstacle. So `player_update` reads the path as already advanced in the same tick, and
`update_camera` computes the on-screen position from the player position already updated
in the same tick. -/
theorem C14_tick_order {W A : Type} (cfg : Config) (ext : Externals W A)
    (state : GameState W A) (thrust : Bool) :
    game_state_update cfg ext state thrust =
        tick_obstacle_update cfg
          (update_camera cfg
            (tick_player_update cfg ext
              (tick_asteroid_update ext (tick_path_advance cfg ext state)) thrust)) ∧
    (game_state_update cfg ext state thrust).wave =
        ext.wave_update state.wave
          (player_get_screen_position cfg state.player state.camera_y_offset).y ∧
    (game_state_update cfg ext state thrust).asteroid_system =
        ext.asteroid_system_update state.asteroid_system
          (game_state_update cfg ext state thrust).wave ∧
    (game_state_update cfg ext state thrust).player =
        player_update cfg ext state.player
          { state with
            wave := (game_state_update cfg ext state thrust).wave
            asteroid_system := (game_state_update cfg ext state thrust).asteroid_system }
          thrust ∧
    (game_state_update cfg ext state thrust).target_y_offset =
        camera_target cfg
          { state with
            wave := (game_state_update cfg ext state thrust).wave
            asteroid_system := (game_state_update cfg ext state thrust).asteroid_system
            player := (game_state_update cfg ext state thrust).player } ∧
    camera_player_screen_y cfg
        (tick_player_update cfg ext
          (tick_asteroid_update ext (tick_path_advance cfg ext state)) thrust) =
      f22_to_float cfg (game_state_update cfg ext state thrust).player.position.y -
        f22_to_float cfg state.camera_y_offset ∧
    (game_state_update cfg ext state thrust).obstacles =
        state.obstacles.map (obstacle_update cfg) := by
  refine ⟨rfl, rfl, rfl, rfl, rfl, rfl, ?_⟩
  show state.obstacles.map (fun o => if o.active then obstacle_update cfg o else o) = _
  apply List.map_congr_left
  intro o _
  cases h : o.active
  · simp [obstacle_update, h]
  · simp

/-! ## Rotation easing -/

theorem player_update_rotation {W A : Type} (cfg : Config) (ext : Externals W A)
    (player : Player) (state : GameState W A) (thrust : Bool) :
    (player_update cfg ext player state thrust).rotation =
      max (-55 + cfg.SCROLL_SPEED) (min (55 - cfg.SCROLL_SPEED)
        (rotation_step
          (-(f22_to_float cfg (player_update cfg ext player state thrust).velocity.y) * 50)
          player.rotation)) := rfl

theorem rotation_seq_closed_form (t r0 : ℚ) (n : Nat) :
    rotation_seq t r0 n = -t / 9 + (r0 + t / 9) * (1 / 10) ^ n := by
  induction n with
  | zero =>
    rw [rotation_seq, pow_zero]
    ring
  | succ n ih =>
    rw [rotation_seq, ih, rotation_step, pow_succ]
    ring

theorem rotation_seq_tendsto (t r0 : ℚ) :
    Filter.Tendsto (rotation_seq t r0) Filter.atTop (nhds (-t / 9)) := by
  have hpow : Filter.Tendsto (fun n : Nat => ((1 : ℚ) / 10) ^ n) Filter.atTop (nhds 0) :=
    tendsto_pow_atTop_nhds_zero_of_lt_one (by norm_num) (by norm_num)
  have h := (hpow.const_mul (r0 + t / 9)).const_add (-t / 9)
  simp only [mul_zero, add_zero] at h
  have e : rotation_seq t r0 = fun n : Nat => -t / 9 + (r0 + t / 9) * (1 / 10) ^ n := by
    funext n
    exact rotation_seq_closed_form t r0 n
  rw [e]
  exact h

/-- C15 (as amended): for a fixed target rotation `t`, the sequence produced by repeating
the literal recurrence `rotation <- (rotation - t) * 0.1` of `player_update` is
`-t/9 + (r0 + t/9) / 10^n`; it converges to `-t/9` from every starting rotation `r0`, and
so converges to 0 exactly when `t = 0`. -/
theorem C15_rotation_limit (t r0 : ℚ) :
    (∀ n, rotation_seq t r0 n = -t / 9 + (r0 + t / 9) * (1 / 10) ^ n) ∧
    rotation_step t (-t / 9) = -t / 9 ∧
    Filter.Tendsto (rotation_seq t r0) Filter.atTop (nhds (-t / 9)) ∧
    (Filter.Tendsto (rotation_seq t r0) Filter.atTop (nhds 0) ↔ t = 0) := by
  refine ⟨rotation_seq_closed_form t r0, ?_, rotation_seq_tendsto t r0, ?_⟩
  · unfold rotation_step
    ring
  · constructor
    · intro h
      have hu := tendsto_nhds_unique h (rotation_seq_tendsto t r0)
      have : -t / 9 = 0 := hu.symm
      linarith
    · intro h
      have ht := rotation_seq_tendsto t r0
      rw [h] at ht ⊢
      simpa using ht

theorem terminalPlayer_update {W A : Type} (ext : Externals W A) (state : GameState W A) :
    (player_update sampleConfig ext terminalPlayer state false).velocity.y = 524288 ∧
      (player_update sampleConfig ext terminalPlayer state false).rotation = 400 / 9 := by
  have hv : (player_update sampleConfig ext terminalPlayer state false).velocity.y =
      524288 := by
    rw [player_update_velocity_y, clamped_velocity_y_eq]
    decide
  refine ⟨hv, ?_⟩
  rw [player_update_rotation, hv]
  norm_num [rotation_step, f22_to_float, f22_one, sampleConfig, terminalPlayer]

/-- C15 (as stated) fails: with the target rotation `t = -400` of a player falling at the
maximal velocity 8 of the sample configuration, the recurrence started at `400/9` stays
at `400/9` for ever and does not converge to 0; `player_update` itself maps such a player
to one with the same velocity and the same rotation `400/9`. -/
theorem C15_rotation_counterexample :
    (∀ n, rotation_seq (-400) (400 / 9) n = 400 / 9) ∧
    ¬ Filter.Tendsto (rotation_seq (-400) (400 / 9)) Filter.atTop (nhds 0) ∧
    (player_update sampleConfig sampleExt terminalPlayer bandState false).velocity.y =
      terminalPlayer.velocity.y ∧
    (player_update sampleConfig sampleExt terminalPlayer bandState false).rotation =
      terminalPlayer.rotation := by
  refine ⟨?_, ?_, (terminalPlayer_update sampleExt bandState).1,
    (terminalPlayer_update sampleExt bandState).2⟩
  · intro n
    rw [rotation_seq_closed_form]
    norm_num
  · intro h
    have hu := tendsto_nhds_unique h (rotation_seq_tendsto (-400) (400 / 9))
    norm_num at hu

/-! ## Horizontal bounds and the path index -/

theorem float_to_int_le_max (f : ℚ) : (float_to_int f : ℚ) ≤ max f 0 := by
  unfold float_to_int
  split_ifs with h
  · exact le_trans (Int.floor_le f) (le_max_left _ _)
  · have hc : Int.ceil f ≤ 0 := Int.ceil_le.mpr (by simpa using (not_le.mp h).le)
    have hc' : ((Int.ceil f : Int) : ℚ) ≤ 0 := by exact_mod_cast hc
    exact le_trans hc' (le_max_right _ _)

theorem f22_to_float_from_float_le_max (cfg : Config) (f : ℚ) :
    f22_to_float cfg (f22_from_float cfg f) ≤ max f 0 := by
  have hpos := f22_one_pos cfg
  unfold f22_to_float f22_from_float
  rw [div_le_iff₀ hpos]
  have h := float_to_int_le_max (f * (f22_one cfg : ℚ))
  rcases le_total 0 f with h0 | h0
  · rw [max_eq_left h0]
    rw [max_eq_left (mul_nonneg h0 hpos.le)] at h
    exact h
  · rw [max_eq_right h0]
    rw [max_eq_right (mul_nonpos_of_nonpos_of_nonneg h0 hpos.le)] at h
    simpa using h

/-- One call of `player_update` keeps the player's x below `WINDOW_WIDTH / 2 + 1`. -/
theorem player_update_x_upper {W A : Type} (cfg : Config) (ext : Externals W A)
    (player : Player) (state : GameState W A) (thrust : Bool)
    (hH : 0 < cfg.WINDOW_HEIGHT)
    (hx : f22_to_float cfg player.position.x < (cfg.WINDOW_WIDTH : ℚ) / 2 + 1) :
    f22_to_float cfg (player_update cfg ext player state thrust).position.x <
      (cfg.WINDOW_WIDTH : ℚ) / 2 + 1 := by
  by_cases hmid : f22_to_float cfg player.position.x < (cfg.WINDOW_WIDTH : ℚ) / 2
  · rw [player_update_position_x_left cfg ext player state thrust hmid, f22_to_float_add]
    have hd := normalized_distance_nonneg cfg ext player state thrust hH
    have hm : move_amount (normalized_distance cfg ext player state thrust) ≤ 1 := by
      rw [move_amount_eq]
      linarith
    have hstep := f22_to_float_from_float_le_max cfg
      (move_amount (normalized_distance cfg ext player state thrust))
    have hmax : max (move_amount (normalized_distance cfg ext player state thrust)) 0 ≤ 1 :=
      max_le hm zero_le_one
    linarith
  · have hright := player_update_position_x_right cfg ext player state thrust (not_lt.mp hmid)
    have h5 : (0 : Int) ≤ f22_from_float cfg 5 := f22_from_float_nonneg cfg (by norm_num)
    have hle : (player_update cfg ext player state thrust).position.x ≤
        player.position.x := by
      rw [hright]
      split_ifs
      · unfold f22_sub
        linarith
      · rw [f22_from_float_zero]
        simp [f22_sub]
    exact lt_of_le_of_lt ((f22_to_float_le_iff cfg _ _).mpr hle) hx

theorem player_init_x (cfg : Config) : f22_to_float cfg (player_init cfg).position.x = 400 := by
  have e := f22_to_float_from_float_intCast cfg 400
  simpa using e

theorem game_state_run_x_upper {W A : Type} (cfg : Config) (ext : Externals W A)
    (inputs : Nat → Bool) (hH : 0 < cfg.WINDOW_HEIGHT)
    (hW : (400 : ℚ) < (cfg.WINDOW_WIDTH : ℚ) / 2 + 1) (n : Nat) :
    f22_to_float cfg (game_state_run cfg ext inputs n).player.position.x <
      (cfg.WINDOW_WIDTH : ℚ) / 2 + 1 := by
  induction n with
  | zero =>
    show f22_to_float cfg (player_init cfg).position.x < _
    rw [player_init_x]
    exact hW
  | succ n ih =>
    rw [game_state_run, game_state_update_player]
    exact player_update_x_upper cfg ext _ _ _ hH ih

theorem float_to_int_lt_of_lt {f b : ℚ} (hb : 0 < b) (h : f < b) :
    (float_to_int f : ℚ) < b := by
  have := float_to_int_le_max f
  rcases le_total 0 f with h0 | h0
  · rw [max_eq_left h0] at this
    linarith
  · rw [max_eq_right h0] at this
    linarith

theorem f22_one_sample : f22_one sampleConfig = 65536 := by
  unfold f22_one sampleConfig
  norm_num

theorem f22_from_float_sample (n : Int) :
    f22_from_float sampleConfig (n : ℚ) = n * 65536 := by
  rw [f22_from_float_intCast, f22_one_sample]

theorem player_init_sample :
    player_init sampleConfig =
      { position := { x := 26214400, y := 19660800 }, velocity := { x := 0, y := 0 },
        rotation := 0 } := by
  have h400 : f22_from_float sampleConfig 400 = 26214400 := by
    have h := f22_from_float_sample 400
    norm_num at h
    exact h
  have h300 : f22_from_float sampleConfig 300 = 19660800 := by
    have h := f22_from_float_sample 300
    norm_num at h
    exact h
  unfold player_init
  rw [h400, h300, f22_from_float_zero]

theorem far_normalized_distance (p : Player) (s : GameState Unit Unit) :
    normalized_distance sampleConfig farExt p s false =
      |(3951869952 : ℚ) / 65536 -
        ((p.position.y + clamped_velocity_y sampleConfig p false : Int) : ℚ) / 65536| / 600 := by
  norm_num [normalized_distance, f22_to_float, f22_one, farExt, sampleConfig, f22_add]

/-- First tick with the far path: the player, at mid-screen and far from the path, is
pushed left from x = 400 to x = 395. -/
theorem far_tick_1 (s : GameState Unit Unit) :
    (player_update sampleConfig farExt (player_init sampleConfig) s false).position =
        { x := 25886720, y := 19677184 } ∧
      (player_update sampleConfig farExt (player_init sampleConfig) s false).velocity.y =
        16384 := by
  have hv : clamped_velocity_y sampleConfig (player_init sampleConfig) false = 16384 := by
    rw [clamped_velocity_y_eq, player_init_sample]
    decide
  have hy : (player_update sampleConfig farExt (player_init sampleConfig) s false).position.y
      = 19677184 := by
    rw [player_update_position_y, hv, player_init_sample]
    rfl
  have hx : (player_update sampleConfig farExt (player_init sampleConfig) s false).position.x
      = 25886720 := by
    rw [player_update_position_x_right]
    · rw [far_normalized_distance, hv, if_pos]
      · have h5 : f22_from_float sampleConfig 5 = 327680 := by
          have h := f22_from_float_sample 5
          norm_num at h
          exact h
        rw [h5, player_init_sample]
        rfl
      · rw [player_init_sample]
        norm_num [abs_of_nonneg]
    · rw [player_init_sample]
      norm_num [f22_to_float, f22_one, sampleConfig]
  refine ⟨?_, by rw [player_update_velocity_y, hv]⟩
  rw [← hx, ← hy]

/-- Second tick with the far path: the player, now left of mid-screen at x = 395 and at
normalized distance 100 from the path, is moved by `1 - 7 * 100 = -699` to x = -304. -/
theorem far_tick_2 (p : Player) (s : GameState Unit Unit)
    (hpos : p.position = { x := 25886720, y := 19677184 }) (hv : p.velocity.y = 16384) :
    (player_update sampleConfig farExt p s false).position.x = -19922944 := by
  have hraw : raw_velocity_y sampleConfig p false = 32768 := by
    unfold raw_velocity_y
    rw [hv]
    rfl
  have hclamp : clamped_velocity_y sampleConfig p false = 32768 := by
    rw [clamped_velocity_y_eq, hraw]
    decide
  have hd : normalized_distance sampleConfig farExt p s false = 100 := by
    rw [far_normalized_distance, hclamp, hpos]
    norm_num [abs_of_nonneg]
  have hm : move_amount 100 = ((-699 : Int) : ℚ) := by
    norm_num [move_amount]
  rw [player_update_position_x_left, hd, hm, f22_from_float_sample, hpos]
  · rfl
  · rw [hpos]
    norm_num [f22_to_float, f22_one, sampleConfig]

theorem far_run_2_x :
    (game_state_run sampleConfig farExt (fun _ => false) 2).player.position.x =
      -19922944 := by
  have h1 : (game_state_run sampleConfig farExt (fun _ => false) 1).player =
      player_update sampleConfig farExt (player_init sampleConfig)
        (tick_asteroid_update farExt
          (tick_path_advance sampleConfig farExt (game_state_init sampleConfig farExt)))
        false := rfl
  have h2 : (game_state_run sampleConfig farExt (fun _ => false) 2).player =
      player_update sampleConfig farExt
        (game_state_run sampleConfig farExt (fun _ => false) 1).player
        (tick_asteroid_update farExt
          (tick_path_advance sampleConfig farExt
            (game_state_run sampleConfig farExt (fun _ => false) 1)))
        false := rfl
  rw [h2]
  apply far_tick_2
  · rw [h1]
    exact (far_tick_1 _).1
  · rw [h1]
    exact (far_tick_1 _).2

theorem player_update_x_step_left {W A : Type} (cfg : Config) (ext : Externals W A)
    (player : Player) (state : GameState W A) (thrust : Bool)
    (hH : 0 < cfg.WINDOW_HEIGHT)
    (hmid : f22_to_float cfg player.position.x < (cfg.WINDOW_WIDTH : ℚ) / 2) :
    f22_to_float cfg (player_update cfg ext player state thrust).position.x ≤
      f22_to_float cfg player.position.x + 1 := by
  rw [player_update_position_x_left cfg ext player state thrust hmid, f22_to_float_add]
  have hd := normalized_distance_nonneg cfg ext player state thrust hH
  have hm : move_amount (normalized_distance cfg ext player state thrust) ≤ 1 := by
    rw [move_amount_eq]
    linarith
  have hstep := f22_to_float_from_float_le_max cfg
    (move_amount (normalized_distance cfg ext player state thrust))
  have hmax : max (move_amount (normalized_distance cfg ext player state thrust)) 0 ≤ 1 :=
    max_le hm zero_le_one
  linarith

theorem player_update_x_step_right {W A : Type} (cfg : Config) (ext : Externals W A)
    (player : Player) (state : GameState W A) (thrust : Bool)
    (hmid : (cfg.WINDOW_WIDTH : ℚ) / 2 ≤ f22_to_float cfg player.position.x) :
    (player_update cfg ext player state thrust).position.x ≤ player.position.x := by
  rw [player_update_position_x_right cfg ext player state thrust hmid]
  have h5 : (0 : Int) ≤ f22_from_float cfg 5 := f22_from_float_nonneg cfg (by norm_num)
  split_ifs
  · unfold f22_sub
    linarith
  · rw [f22_from_float_zero]
    simp [f22_sub]

/-- C16 (as amended): in every state reachable from `game_state_init` by
`game_state_update` ticks, for any thrust inputs and any path, the index
`(int) player.position.x` at which `player_update` reads `wave.points` is below
`WINDOW_WIDTH / 2 + 1` (given `WINDOW_HEIGHT > 0` and `400 < WINDOW_WIDTH / 2 + 1`), and
it is not negative in the states in which the left-bound test of
`game_state_check_collisions` does not fire (player x at least `GAME_OVER_X ≥ 0`). -/
theorem C16_path_index_bounds {W A : Type} (cfg : Config) (ext : Externals W A)
    (inputs : Nat → Bool) (hH : 0 < cfg.WINDOW_HEIGHT)
    (hW : (400 : ℚ) < (cfg.WINDOW_WIDTH : ℚ) / 2 + 1) (n : Nat) :
    (∀ thrust : Bool,
      normalized_distance cfg ext (game_state_run cfg ext inputs n).player
          (game_state_run cfg ext inputs n) thrust =
        |f22_to_float cfg (ext.wave_point_y (game_state_run cfg ext inputs n).wave
              (path_index cfg (game_state_run cfg ext inputs n))) -
            f22_to_float cfg
              (player_update cfg ext (game_state_run cfg ext inputs n).player
                (game_state_run cfg ext inputs n) thrust).position.y| /
          (cfg.WINDOW_HEIGHT : ℚ)) ∧
    ((path_index cfg (game_state_run cfg ext inputs n) : ℚ) <
      (cfg.WINDOW_WIDTH : ℚ) / 2 + 1) ∧
    (0 ≤ cfg.GAME_OVER_X →
      ¬ f22_to_float cfg (game_state_run cfg ext inputs n).player.position.x <
          cfg.GAME_OVER_X →
      0 ≤ path_index cfg (game_state_run cfg ext inputs n)) := by
  refine ⟨fun _ => rfl, ?_, ?_⟩
  · exact float_to_int_lt_of_lt (by linarith)
      (game_state_run_x_upper cfg ext inputs hH hW n)
  · intro hg hx
    exact float_to_int_nonneg (le_trans hg (not_lt.mp hx))

/-- C16 (as amended) on the sample configuration at the initial state. -/
theorem C16_path_index_bounds_witness :
    ((0 : Int) < sampleConfig.WINDOW_HEIGHT ∧
      (400 : ℚ) < (sampleConfig.WINDOW_WIDTH : ℚ) / 2 + 1) ∧
    ((path_index sampleConfig (game_state_run sampleConfig sampleExt (fun _ => false) 0) : ℚ)
      < (sampleConfig.WINDOW_WIDTH : ℚ) / 2 + 1) :=
  ⟨⟨by decide, by norm_num [sampleConfig]⟩,
    (C16_path_index_bounds sampleConfig sampleExt (fun _ => false) (by decide)
      (by norm_num [sampleConfig]) 0).2.1⟩

/-- C16 (as stated) fails: in the sample configuration with a path far below the screen
(every sample at world height 60300.75), two ticks without thrust take the player from
x = 400 to x = 395 and then to x = -304, so the index the next `player_update` reads
`wave.points` at is -304. -/
theorem C16_path_index_counterexample :
    (game_state_run sampleConfig farExt (fun _ => false) 2).player.position.x = -19922944 ∧
    path_index sampleConfig (game_state_run sampleConfig farExt (fun _ => false) 2) = -304 ∧
    path_index sampleConfig (game_state_run sampleConfig farExt (fun _ => false) 2) < 0 := by
  have hidx : path_index sampleConfig
      (game_state_run sampleConfig farExt (fun _ => false) 2) = -304 := by
    unfold path_index
    rw [far_run_2_x]
    have e : f22_to_float sampleConfig (-19922944) = ((-304 : Int) : ℚ) := by
      norm_num [f22_to_float, f22_one, sampleConfig]
    rw [e, float_to_int_intCast]
  refine ⟨far_run_2_x, hidx, ?_⟩
  rw [hidx]
  decide

/-- C20: with `WINDOW_HEIGHT > 0`, `player_update` preserves
`position.x < WINDOW_WIDTH / 2 + 1`: left of mid-screen the step is at most +1, at or
right of mid-screen the step is never positive; so if the initial x = 400 is below
`WINDOW_WIDTH / 2 + 1`, the player's x stays below it in every state reachable by ticks,
whatever the thrust inputs and the path. -/
theorem C20_rightward_bound {W A : Type} (cfg : Config) (ext : Externals W A)
    (hH : 0 < cfg.WINDOW_HEIGHT) :
    (∀ (player : Player) (state : GameState W A) (thrust : Bool),
      f22_to_float cfg player.position.x < (cfg.WINDOW_WIDTH : ℚ) / 2 + 1 →
      f22_to_float cfg (player_update cfg ext player state thrust).position.x <
        (cfg.WINDOW_WIDTH : ℚ) / 2 + 1) ∧
    (∀ (player : Player) (state : GameState W A) (thrust : Bool),
      f22_to_float cfg player.position.x < (cfg.WINDOW_WIDTH : ℚ) / 2 →
      f22_to_float cfg (player_update cfg ext player state thrust).position.x ≤
        f22_to_float cfg player.position.x + 1) ∧
    (∀ (player : Player) (state : GameState W A) (thrust : Bool),
      (cfg.WINDOW_WIDTH : ℚ) / 2 ≤ f22_to_float cfg player.position.x →
      (player_update cfg ext player state thrust).position.x ≤ player.position.x) ∧
    (f22_to_float cfg (game_state_init cfg ext).player.position.x = 400) ∧
    ((400 : ℚ) < (cfg.WINDOW_WIDTH : ℚ) / 2 + 1 →
      ∀ (inputs : Nat → Bool) (n : Nat),
        f22_to_float cfg (game_state_run cfg ext inputs n).player.position.x <
          (cfg.WINDOW_WIDTH : ℚ) / 2 + 1) := by
  refine ⟨?_, ?_, ?_, player_init_x cfg, ?_⟩
  · intro player state thrust hx
    exact player_update_x_upper cfg ext player state thrust hH hx
  · intro player state thrust hx
    exact player_update_x_step_left cfg ext player state thrust hH hx
  · intro player state thrust hx
    exact player_update_x_step_right cfg ext player state thrust hx
  · intro hW inputs n
    exact game_state_run_x_upper cfg ext inputs hH hW n

/-- C20 on the sample configuration (mid-screen at 400): after three ticks with thrust
the player's x is still below 401. -/
theorem C20_rightward_bound_witness :
    (0 : Int) < sampleConfig.WINDOW_HEIGHT ∧
    f22_to_float sampleConfig
        (game_state_run sampleConfig sampleExt (fun _ => true) 3).player.position.x <
      (sampleConfig.WINDOW_WIDTH : ℚ) / 2 + 1 :=
  ⟨by decide,
    (C20_rightward_bound sampleConfig sampleExt (by decide)).2.2.2.2
      (by norm_num [sampleConfig]) (fun _ => true) 3⟩

/-! ## Camera smoothing -/

theorem f22_from_float_half (cfg : Config) (h : 1 ≤ cfg.fracBits) :
    f22_from_float cfg 0.5 = 2 ^ (cfg.fracBits - 1) := by
  obtain ⟨k, hk⟩ : ∃ k, cfg.fracBits = k + 1 := ⟨cfg.fracBits - 1, by omega⟩
  unfold f22_from_float f22_one
  rw [hk, Nat.add_sub_cancel]
  have e : (0.5 : ℚ) * (((2 : Int) ^ (k + 1) : Int) : ℚ) = (((2 : Int) ^ k : Int) : ℚ) := by
    push_cast
    rw [pow_succ]
    norm_num
    ring
  rw [e, float_to_int_intCast]

theorem f22_mul_half (cfg : Config) (h : 1 ≤ cfg.fracBits) (d : F22) :
    f22_mul cfg d (f22_from_float cfg 0.5) = d / 2 := by
  obtain ⟨k, hk⟩ : ∃ k, cfg.fracBits = k + 1 := ⟨cfg.fracBits - 1, by omega⟩
  rw [f22_from_float_half cfg h]
  unfold f22_mul f22_one
  rw [hk, Nat.add_sub_cancel, pow_succ, mul_comm ((2 : Int) ^ k) 2]
  exact Int.mul_ediv_mul_of_pos_left d 2 (by positivity)

theorem camera_target_in_gap {W A : Type} (cfg : Config) (state : GameState W A)
    (hH : 350 ≤ cfg.WINDOW_HEIGHT)
    (h : (EDGE_BUFFER ≤ camera_player_screen_y cfg state ∧
          camera_player_screen_y cfg state ≤ RETURN_BUFFER) ∨
        ((cfg.WINDOW_HEIGHT : ℚ) - RETURN_BUFFER ≤ camera_player_screen_y cfg state ∧
          camera_player_screen_y cfg state ≤ (cfg.WINDOW_HEIGHT : ℚ) - EDGE_BUFFER)) :
    camera_target cfg state = state.target_y_offset := by
  have hH' : (350 : ℚ) ≤ (cfg.WINDOW_HEIGHT : ℚ) := by exact_mod_cast hH
  unfold EDGE_BUFFER RETURN_BUFFER at h
  have e1 : ¬ camera_player_screen_y cfg state < EDGE_BUFFER := by
    unfold EDGE_BUFFER
    rcases h with h | h <;> linarith [h.1, h.2]
  have e2 : ¬ camera_player_screen_y cfg state > (cfg.WINDOW_HEIGHT : ℚ) - EDGE_BUFFER := by
    unfold EDGE_BUFFER
    rcases h with h | h <;> linarith [h.1, h.2]
  have e3 : ¬ (camera_player_screen_y cfg state > RETURN_BUFFER ∧
      camera_player_screen_y cfg state < (cfg.WINDOW_HEIGHT : ℚ) - RETURN_BUFFER) := by
    unfold RETURN_BUFFER
    rintro ⟨g1, g2⟩
    rcases h with h | h <;> linarith [h.1, h.2]
  unfold camera_target
  rw [if_neg e1, if_neg e2, if_neg e3]

/-- C18: after `update_camera` the new `camera_y_offset` is
`old + (T - old) * 0.5` in fixed-point arithmetic, `T` being the `target_y_offset` chosen
in the same call. When the player's on-screen y lies in the hysteresis gap
`[EDGE_BUFFER, RETURN_BUFFER]` or in the mirrored gap at the bottom (window at least 350
high, so that the gaps are clear of the opposite edge band), the target is left unchanged
and the offset moves half of the remaining distance toward it, rounded down to the
fixed-point grid (at least one fractional bit). -/
theorem C18_camera_smoothing {W A : Type} (cfg : Config) (state : GameState W A) :
    (update_camera cfg state).camera_y_offset =
        f22_add state.camera_y_offset
          (f22_mul cfg
            (f22_sub (update_camera cfg state).target_y_offset state.camera_y_offset)
            (f22_from_float cfg 0.5)) ∧
    (350 ≤ cfg.WINDOW_HEIGHT →
      ((EDGE_BUFFER ≤ camera_player_screen_y cfg state ∧
          camera_player_screen_y cfg state ≤ RETURN_BUFFER) ∨
        ((cfg.WINDOW_HEIGHT : ℚ) - RETURN_BUFFER ≤ camera_player_screen_y cfg state ∧
          camera_player_screen_y cfg state ≤ (cfg.WINDOW_HEIGHT : ℚ) - EDGE_BUFFER)) →
      (update_camera cfg state).target_y_offset = state.target_y_offset ∧
      (1 ≤ cfg.fracBits →
        (update_camera cfg state).camera_y_offset =
            state.camera_y_offset + (state.target_y_offset - state.camera_y_offset) / 2 ∧
        2 * ((update_camera cfg state).camera_y_offset - state.camera_y_offset) ≤
            state.target_y_offset - state.camera_y_offset ∧
        state.target_y_offset - state.camera_y_offset ≤
            2 * ((update_camera cfg state).camera_y_offset - state.camera_y_offset) + 1)) := by
  refine ⟨rfl, ?_⟩
  intro hH h
  have ht : (update_camera cfg state).target_y_offset = state.target_y_offset :=
    camera_target_in_gap cfg state hH h
  refine ⟨ht, ?_⟩
  intro hfb
  have hc : (update_camera cfg state).camera_y_offset =
      state.camera_y_offset + (state.target_y_offset - state.camera_y_offset) / 2 := by
    show f22_add state.camera_y_offset
      (f22_mul cfg (f22_sub (update_camera cfg state).target_y_offset state.camera_y_offset)
        (f22_from_float cfg 0.5)) = _
    rw [ht, f22_mul_half cfg hfb]
    rfl
  refine ⟨hc, ?_, ?_⟩
  · rw [hc]
    have := @Int.mul_ediv_self_le (state.target_y_offset - state.camera_y_offset) 2
      (by norm_num)
    linarith
  · rw [hc]
    have := @Int.lt_mul_ediv_self_add (state.target_y_offset - state.camera_y_offset) 2
      (by norm_num)
    linarith

theorem gapState_screen_y : camera_player_screen_y sampleConfig gapState = 180 := by
  norm_num [camera_player_screen_y, f22_to_float, f22_one, sampleConfig, gapState,
    sampleState]

/-- C18 on the sample configuration: with the player on screen at height 180, camera
offset 0 and target 100, the target stays at 100 and the offset moves to 50. -/
theorem C18_camera_smoothing_witness :
    (update_camera sampleConfig gapState).target_y_offset = 6553600 ∧
    (update_camera sampleConfig gapState).camera_y_offset = 0 + (6553600 - 0) / 2 :=
  ⟨((C18_camera_smoothing sampleConfig gapState).2 (by decide)
      (Or.inl (by rw [gapState_screen_y]; norm_num [EDGE_BUFFER, RETURN_BUFFER]))).1,
    (((C18_camera_smoothing sampleConfig gapState).2 (by decide)
      (Or.inl (by rw [gapState_screen_y]; norm_num [EDGE_BUFFER, RETURN_BUFFER]))).2
      (by decide)).1⟩

/-! ## Obstacles are never active -/

theorem game_state_update_obstacles {W A : Type} (cfg : Config) (ext : Externals W A)
    (state : GameState W A) (thrust : Bool) :
    (game_state_update cfg ext state thrust).obstacles =
      state.obstacles.map fun o => if o.active then obstacle_update cfg o else o := rfl

theorem game_state_update_obstacles_of_inactive {W A : Type} (cfg : Config)
    (ext : Externals W A) (state : GameState W A) (thrust : Bool)
    (h : ∀ o ∈ state.obstacles, o.active = false) :
    (game_state_update cfg ext state thrust).obstacles = state.obstacles := by
  rw [game_state_update_obstacles]
  conv_rhs => rw [← List.map_id state.obstacles]
  apply List.map_congr_left
  intro o ho
  simp [h o ho]

theorem game_state_init_obstacles_inactive {W A : Type} (cfg : Config)
    (ext : Externals W A) :
    ∀ o ∈ (game_state_init cfg ext : GameState W A).obstacles, o.active = false := by
  intro o ho
  have : o = obstacle_init cfg := List.eq_of_mem_replicate ho
  rw [this]
  rfl

theorem game_state_run_obstacles {W A : Type} (cfg : Config) (ext : Externals W A)
    (inputs : Nat → Bool) (n : Nat) :
    (game_state_run cfg ext inputs n).obstacles =
      (game_state_init cfg ext : GameState W A).obstacles := by
  induction n with
  | zero => rfl
  | succ n ih =>
    rw [game_state_run, game_state_update_obstacles_of_inactive, ih]
    rw [ih]
    exact game_state_init_obstacles_inactive cfg ext

/-- C19: `game_state_init` creates `MAX_OBSTACLES` obstacles, all inactive;
`game_state_update` never activates an obstacle; so in every state reachable from
`game_state_init` by ticks all `MAX_OBSTACLES` slots are inactive, the obstacles are as
created (their positions never change), and `game_state_check_collisions` returns
(player x < `GAME_OVER_X`) or asteroid collision. -/
theorem C19_obstacles_never_active {W A : Type} (cfg : Config) (ext : Externals W A)
    (inputs : Nat → Bool) (n : Nat) :
    (game_state_init cfg ext : GameState W A).obstacles =
        List.replicate cfg.MAX_OBSTACLES (obstacle_init cfg) ∧
    (obstacle_init cfg).active = false ∧
    (∀ (state : GameState W A) (thrust : Bool),
      ∀ o ∈ (game_state_update cfg ext state thrust).obstacles, o.active = true →
        ∃ o0 ∈ state.obstacles, o0.active = true) ∧
    (game_state_run cfg ext inputs n).obstacles =
        List.replicate cfg.MAX_OBSTACLES (obstacle_init cfg) ∧
    (game_state_run cfg ext inputs n).obstacles.length = cfg.MAX_OBSTACLES ∧
    (∀ o ∈ (game_state_run cfg ext inputs n).obstacles, o.active = false) ∧
    (game_state_check_collisions cfg ext (game_state_run cfg ext inputs n)).1 =
      (decide (f22_to_float cfg (game_state_run cfg ext inputs n).player.position.x <
          cfg.GAME_OVER_X) ||
        ext.asteroid_system_check_collision
          (game_state_run cfg ext inputs n).asteroid_system
          (game_state_run cfg ext inputs n).player) := by
  have hrun := game_state_run_obstacles cfg ext inputs n
  have hinact : ∀ o ∈ (game_state_run cfg ext inputs n).obstacles, o.active = false := by
    rw [hrun]
    exact game_state_init_obstacles_inactive cfg ext
  refine ⟨rfl, rfl, ?_, hrun, ?_, hinact, ?_⟩
  · intro state thrust o ho hact
    rw [game_state_update_obstacles, List.mem_map] at ho
    obtain ⟨o0, ho0, rfl⟩ := ho
    refine ⟨o0, ho0, ?_⟩
    by_contra hn
    have hf : o0.active = false := by simpa using hn
    rw [hf] at hact
    simp [hf] at hact
  · rw [hrun]
    exact List.length_replicate _ _
  · have hloop : check_obstacles cfg
        (player_get_screen_position cfg (game_state_run cfg ext inputs n).player
          (game_state_run cfg ext inputs n).camera_y_offset)
        (game_state_run cfg ext inputs n).obstacles = false := by
      rw [← Bool.not_eq_true, check_obstacles_eq_true_iff]
      rintro ⟨o, ho, hact, -⟩
      rw [hinact o ho] at hact
      exact Bool.false_ne_true hact
    unfold game_state_check_collisions
    by_cases hx : f22_to_float cfg (game_state_run cfg ext inputs n).player.position.x <
        cfg.GAME_OVER_X
    · simp [hx]
    · by_cases ha : ext.asteroid_system_check_collision
          (game_state_run cfg ext inputs n).asteroid_system
          (game_state_run cfg ext inputs n).player = true
      · simp [hx, ha]
      · simp [hx, ha, hloop]

/-! ## Fixed-timestep driver -/

theorem handle_event_accumulated_time {W A : Type}
    (handle_click : GameState W A → Int → Int → GameState W A) (ctx : GameContext W A)
    (e : Event) :
    (handle_event handle_click ctx e).accumulated_time = ctx.accumulated_time := by
  cases e <;> rfl

theorem handle_input_accumulated_time {W A : Type}
    (handle_click : GameState W A → Int → Int → GameState W A) (events : List Event)
    (ctx : GameContext W A) :
    (handle_input handle_click events ctx).accumulated_time = ctx.accumulated_time := by
  unfold handle_input
  induction events generalizing ctx with
  | nil => rfl
  | cons e rest ih =>
    rw [List.foldl_cons, ih, handle_event_accumulated_time]

theorem capped_frame_time_bounds (current_time last_frame_time : Nat) :
    0 ≤ capped_frame_time current_time last_frame_time ∧
      capped_frame_time current_time last_frame_time ≤ 0.25 := by
  unfold capped_frame_time
  have hnn : (0 : ℚ) ≤
      (((current_time + 2 ^ 32 - last_frame_time) % 2 ^ 32 : Nat) : ℚ) / 1000 :=
    div_nonneg (Nat.cast_nonneg _) (by norm_num)
  simp only []
  split_ifs with h
  · constructor <;> norm_num
  · exact ⟨hnn, not_lt.mp h⟩

/-- The tick loop started with an accumulator in `[0, (m + 1) * FIXED_TIME_STEP)` and more
than `m` units of fuel returns after at most `m` updates, having removed one
`FIXED_TIME_STEP` per update, with the accumulator in `[0, FIXED_TIME_STEP)`. -/
theorem tick_loop_returns {W A : Type} (cfg : Config) (ext : Externals W A)
    (handle_click : GameState W A → Int → Int → GameState W A)
    (polls : Nat → List Event) (m : Nat) :
    ∀ (fuel updates : Nat) (ctx : GameContext W A),
      0 ≤ ctx.accumulated_time →
      ctx.accumulated_time < ((m : ℚ) + 1) * FIXED_TIME_STEP →
      m < fuel →
      ∃ (ctx' : GameContext W A) (j : Nat),
        tick_loop cfg ext handle_click polls fuel updates ctx = some (ctx', updates + j) ∧
        j ≤ m ∧ 0 ≤ ctx'.accumulated_time ∧ ctx'.accumulated_time < FIXED_TIME_STEP ∧
        ctx'.accumulated_time = ctx.accumulated_time - (j : ℚ) * FIXED_TIME_STEP := by
  induction m with
  | zero =>
    intro fuel updates ctx h0 h1 hf
    obtain ⟨fuel', rfl⟩ : ∃ f, fuel = f + 1 := ⟨fuel - 1, by omega⟩
    have hlt : ctx.accumulated_time < FIXED_TIME_STEP := by simpa using h1
    refine ⟨ctx, 0, ?_, le_refl _, h0, hlt, by simp⟩
    rw [tick_loop, if_neg (not_le.mpr hlt)]
    rfl
  | succ m ih =>
    intro fuel updates ctx h0 h1 hf
    obtain ⟨fuel', rfl⟩ : ∃ f, fuel = f + 1 := ⟨fuel - 1, by omega⟩
    by_cases hge : ctx.accumulated_time ≥ FIXED_TIME_STEP
    · rw [tick_loop, if_pos hge]
      have hacc := handle_input_accumulated_time handle_click (polls updates) ctx
      obtain ⟨ctx', j, hrun, hj, hnn, hlt, heq⟩ := ih fuel' (updates + 1)
        { handle_input handle_click (polls updates) ctx with
          game_state := game_state_update cfg ext
            (handle_input handle_click (polls updates) ctx).game_state
            (handle_input handle_click (polls updates) ctx).thrust_active
          accumulated_time :=
            (handle_input handle_click (polls updates) ctx).accumulated_time -
              FIXED_TIME_STEP }
        (by
          show 0 ≤ (handle_input handle_click (polls updates) ctx).accumulated_time -
            FIXED_TIME_STEP
          rw [hacc]
          linarith)
        (by
          show (handle_input handle_click (polls updates) ctx).accumulated_time -
            FIXED_TIME_STEP < _
          rw [hacc]
          push_cast at h1
          linarith)
        (by omega)
      refine ⟨ctx', j + 1, ?_, by omega, hnn, hlt, ?_⟩
      · rw [← Nat.add_assoc, Nat.add_right_comm]
        exact hrun
      · rw [heq]
        show (handle_input handle_click (polls updates) ctx).accumulated_time -
          FIXED_TIME_STEP - _ = _
        rw [hacc]
        push_cast
        ring
    · have hlt : ctx.accumulated_time < FIXED_TIME_STEP := not_le.mp hge
      refine ⟨ctx, 0, ?_, Nat.zero_le _, h0, hlt, by simp⟩
      rw [tick_loop, if_neg hge]
      rfl

/-- C17: in `main_loop` the elapsed frame time is capped at 0.25 s before it is added to
the accumulator, and the accumulator is drained in whole steps of 1/60 s; so if the
accumulator is in `[0, 1/60)` on entry, the tick loop returns (16 units of fuel are
enough) after at most 15 calls of `game_state_update` and leaves the accumulator in
`[0, 1/60)` again, arithmetic taken exactly. -/
theorem C17_main_loop_tick_cap {W A : Type} (cfg : Config) (ext : Externals W A)
    (handle_click : GameState W A → Int → Int → GameState W A)
    (polls : Nat → List Event) (fuel current_time : Nat) (ctx : GameContext W A)
    (h0 : 0 ≤ ctx.accumulated_time) (h1 : ctx.accumulated_time < FIXED_TIME_STEP)
    (hfuel : 16 ≤ fuel) :
    (0 ≤ capped_frame_time current_time ctx.last_frame_time ∧
      capped_frame_time current_time ctx.last_frame_time ≤ 0.25) ∧
    ∃ (ctx' : GameContext W A) (updates : Nat),
      main_loop cfg ext handle_click polls fuel current_time ctx = some (ctx', updates) ∧
      updates ≤ 15 ∧
      0 ≤ ctx'.accumulated_time ∧ ctx'.accumulated_time < FIXED_TIME_STEP ∧
      ctx'.accumulated_time =
        ctx.accumulated_time + capped_frame_time current_time ctx.last_frame_time -
          (updates : ℚ) * FIXED_TIME_STEP := by
  have hcap := capped_frame_time_bounds current_time ctx.last_frame_time
  refine ⟨hcap, ?_⟩
  obtain ⟨ctx', j, hrun, hj, hnn, hlt, heq⟩ :=
    tick_loop_returns cfg ext handle_click polls 15 fuel 0
      { ctx with
        last_frame_time := current_time
        accumulated_time :=
          ctx.accumulated_time + capped_frame_time current_time ctx.last_frame_time }
      (by
        show 0 ≤ ctx.accumulated_time + capped_frame_time current_time ctx.last_frame_time
        linarith [hcap.1])
      (by
        show ctx.accumulated_time + capped_frame_time current_time ctx.last_frame_time < _
        unfold FIXED_TIME_STEP at h1 ⊢
        have := hcap.2
        norm_num at this ⊢
        linarith)
      (by omega)
  rw [Nat.zero_add] at hrun
  unfold main_loop
  simp only [hrun]
  split_ifs
  · exact ⟨_, j, rfl, hj, hnn, hlt, heq⟩
  · exact ⟨_, j, rfl, hj, hnn, hlt, heq⟩

/-- C17 on the sample context: a frame that took a whole second, entered with an empty
accumulator, is served by at most 15 updates. -/
theorem C17_main_loop_tick_cap_witness :
    (0 ≤ sampleContext.accumulated_time ∧
      sampleContext.accumulated_time < FIXED_TIME_STEP ∧ 16 ≤ 16) ∧
    ∃ (ctx' : GameContext Unit Unit) (updates : Nat),
      main_loop sampleConfig sampleExt (fun s _ _ => s) (fun _ => []) 16 1000
          sampleContext = some (ctx', updates) ∧
        updates ≤ 15 :=
  ⟨⟨by norm_num [sampleContext], by norm_num [sampleContext, FIXED_TIME_STEP], le_refl _⟩,
    by
      obtain ⟨ctx', updates, h, hu, -⟩ :=
        (C17_main_loop_tick_cap sampleConfig sampleExt (fun s _ _ => s) (fun _ => []) 16
          1000 sampleContext (by norm_num [sampleContext])
          (by norm_num [sampleContext, FIXED_TIME_STEP]) (le_refl _)).2
      exact ⟨ctx', updates, h, hu⟩⟩

end F22Raptor
